import Mathlib

/-!
Verification of the NanoKernel core against its specification.

This file gives a shallow embedding, in Lean 4, of the parts of the
Sahne-Karnal RTOS kernel that the specification talks about:

* the static IPC ring buffer `IpcQueue` (src/ipc.rs);
* the static task-stack allocator `TaskStackAllocator` (src/memory.rs);
* the `KernelError` sum (src/platformgeneric.rs);
* the AMD64 serial console CRLF translation (src/arch/amd64/console.rs);
* the RV64 trap dispatcher (src/arch/rv64i/exception.rs);
* the RV64 SBI shutdown/reboot path (src/arch/rv64i/shutdown.rs);
* the RV64 Sv39 boot-time page-table construction (src/arch/rv64i/mmu.rs).

Rust `u64`/`usize` values are modelled as `Nat` with explicit `% 2 ^ 64`
where overflow can occur; `Result<T, E>` becomes `Except E T`; struct
updates become functional record updates.  Mutable global memory (the
page-table construction) is modelled as an explicit store threaded
through the functions.
-/

-- ---------------------------------------------------------------------------
-- src/ipc.rs : the static IPC queue
-- ---------------------------------------------------------------------------

/-- `MESSAGE_DATA_SIZE` from src/ipc.rs: fixed payload capacity per message. -/
def MESSAGE_DATA_SIZE : Nat := 64

/-- The `IpcMessage` record from src/ipc.rs.  The `u8` fields become `Nat`
and the fixed `[u8; 64]` payload becomes a list of byte values. -/
structure IpcMessage where
  sender_id : Nat
  message_type : Nat
  payload : List Nat
  payload_size : Nat
deriving DecidableEq

/-- `IpcMessage::default()`: the zeroed message. -/
def IpcMessage.default : IpcMessage :=
  { sender_id := 0
    message_type := 0
    payload := List.replicate MESSAGE_DATA_SIZE 0
    payload_size := 0 }

/-- `QUEUE_DEPTH` from src/ipc.rs: number of ring-buffer slots. -/
def QUEUE_DEPTH : Nat := 8

/-- The `IpcQueue` ring buffer from src/ipc.rs.  The fixed
`[IpcMessage; QUEUE_DEPTH]` slot array is modelled as a total function from
slot index to message (only indices `< QUEUE_DEPTH` are ever used, which is
exactly what claim C10 establishes); `head` and `tail` are the two counters. -/
structure IpcQueue where
  messages : Nat → IpcMessage
  head : Nat
  tail : Nat

/-- `IpcQueue::new()`: zeroed slots, `head = tail = 0`. -/
def IpcQueue.new : IpcQueue :=
  { messages := fun _ => IpcMessage.default, head := 0, tail := 0 }

/-- `IpcQueue::is_full`: `(tail + 1) % QUEUE_DEPTH == head`. -/
def IpcQueue.is_full (q : IpcQueue) : Bool :=
  (q.tail + 1) % QUEUE_DEPTH == q.head

/-- `IpcQueue::is_empty`: `head == tail`. -/
def IpcQueue.is_empty (q : IpcQueue) : Bool :=
  q.head == q.tail

/-- `IpcQueue::send`: reject with the message itself when full, otherwise
store at `tail` and advance `tail` by one modulo `QUEUE_DEPTH`. -/
def IpcQueue.send (q : IpcQueue) (message : IpcMessage) :
    Except IpcMessage Unit × IpcQueue :=
  if q.is_full then
    (Except.error message, q)
  else
    (Except.ok (),
      { q with
        messages := fun i => if i = q.tail then message else q.messages i
        tail := (q.tail + 1) % QUEUE_DEPTH })

/-- `IpcQueue::receive`: `None` when empty, otherwise read the slot at
`head` and advance `head` by one modulo `QUEUE_DEPTH`. -/
def IpcQueue.receive (q : IpcQueue) : Option IpcMessage × IpcQueue :=
  if q.is_empty then
    (none, q)
  else
    (some (q.messages q.head),
      { q with head := (q.head + 1) % QUEUE_DEPTH })

/-- A single sequential operation on the queue (single producer and single
consumer running sequentially, as in the spec's SPSC reading). -/
inductive IpcOp where
  | send (m : IpcMessage)
  | receive

/-- Observable outcome of one operation. -/
inductive IpcEvent where
  | sendOk (m : IpcMessage)
  | sendErr (m : IpcMessage)
  | recvSome (m : IpcMessage)
  | recvNone

/-- Run one operation, returning the observed event and the new state. -/
def IpcQueue.stepOp (q : IpcQueue) : IpcOp → IpcEvent × IpcQueue
  | .send m =>
    match q.send m with
    | (Except.ok _, q2) => (.sendOk m, q2)
    | (Except.error e, q2) => (.sendErr e, q2)
  | .receive =>
    match q.receive with
    | (some m, q2) => (.recvSome m, q2)
    | (none, q2) => (.recvNone, q2)

/-- Run a list of operations from a given state, collecting the events in
chronological order. -/
def IpcQueue.runFrom (q : IpcQueue) : List IpcOp → IpcQueue × List IpcEvent
  | [] => (q, [])
  | op :: ops =>
    let r := q.stepOp op
    let rest := IpcQueue.runFrom r.2 ops
    (rest.1, r.1 :: rest.2)

/-- Run a list of operations starting from `IpcQueue::new()`. -/
def IpcQueue.run (ops : List IpcOp) : IpcQueue × List IpcEvent :=
  IpcQueue.runFrom IpcQueue.new ops

/-- The messages of the `send` calls that returned `Ok`, in order. -/
def sentOk : List IpcEvent → List IpcMessage
  | [] => []
  | .sendOk m :: es => m :: sentOk es
  | _ :: es => sentOk es

/-- The messages returned by successful `receive` calls, in order. -/
def received : List IpcEvent → List IpcMessage
  | [] => []
  | .recvSome m :: es => m :: received es
  | _ :: es => received es

/-- Number of messages pending in the ring: distance from `head` to `tail`
modulo `QUEUE_DEPTH`. -/
def IpcQueue.pendingCount (q : IpcQueue) : Nat :=
  (q.tail + QUEUE_DEPTH - q.head) % QUEUE_DEPTH

/-- The pending messages in FIFO order, from `head` to `tail`. -/
def IpcQueue.pendingList (q : IpcQueue) : List IpcMessage :=
  (List.range q.pendingCount).map (fun i => q.messages ((q.head + i) % QUEUE_DEPTH))

-- ---------------------------------------------------------------------------
-- src/platformgeneric.rs : KernelError and system constants
-- ---------------------------------------------------------------------------

/-- The `KernelError` enum exactly as defined in src/platformgeneric.rs
(lines 7-22).  It has precisely these seven variants; in particular the
source enum contains no `DtbNotFound` and no `ConfigurationNotParsed`
variant, although src/arch/&ast;/dtb.rs refers to both. -/
inductive KernelError where
  | Success
  | ResourceBusy
  | InvalidArgument
  | NotFound
  | OutOfMemoryStatic
  | PlatformSpecificError (code : Nat)
  | GenericFailure
deriving DecidableEq

/-- `SystemConstants::MAX_TASKS` from src/platformgeneric.rs. -/
def SystemConstants.MAX_TASKS : Nat := 32

-- ---------------------------------------------------------------------------
-- src/memory.rs : the static task-stack allocator
-- ---------------------------------------------------------------------------

/-- `MemoryRegions::TASK_STACKS_VADDR_START` from src/memory.rs. -/
def MemoryRegions.TASK_STACKS_VADDR_START : Nat := 0xC1000000

/-- `MemoryRegions::TASK_STACK_SIZE` from src/memory.rs: 8 KiB. -/
def MemoryRegions.TASK_STACK_SIZE : Nat := 8 * 1024

/-- Rust `usize::checked_add` on the 64-bit targets of this kernel. -/
def checked_add (a b : Nat) : Option Nat :=
  if a + b < 2 ^ 64 then some (a + b) else none

/-- `TaskStackAllocator`: the occupancy flags.  The fixed
`[bool; MAX_TASKS]` array is modelled as a total function; only indices
`< MAX_TASKS` are ever accessed (both operations bounds-check first). -/
structure TaskStackAllocator where
  is_allocated : Nat → Bool

/-- `TaskStackAllocator::get_stack_base_address` (src/memory.rs lines 70-79). -/
def TaskStackAllocator.get_stack_base_address (task_id : Nat) : Option Nat :=
  if task_id ≥ SystemConstants.MAX_TASKS then
    none
  else
    checked_add MemoryRegions.TASK_STACKS_VADDR_START
      (task_id * MemoryRegions.TASK_STACK_SIZE)

/-- `TaskStackAllocator::allocate_stack` (src/memory.rs lines 82-103).
The global allocator state is passed explicitly; the returned value is the
top of the stack (`base + TASK_STACK_SIZE`).  As in the source, the
occupancy flag is set before the base address is computed. -/
def TaskStackAllocator.allocate_stack (st : TaskStackAllocator) (task_id : Nat) :
    Except KernelError Nat × TaskStackAllocator :=
  if task_id ≥ SystemConstants.MAX_TASKS then
    (Except.error KernelError.InvalidArgument, st)
  else if st.is_allocated task_id then
    (Except.error KernelError.ResourceBusy, st)
  else
    let st2 : TaskStackAllocator :=
      ⟨fun i => if i = task_id then true else st.is_allocated i⟩
    match TaskStackAllocator.get_stack_base_address task_id with
    | none => (Except.error KernelError.OutOfMemoryStatic, st2)
    | some base_addr => (Except.ok (base_addr + MemoryRegions.TASK_STACK_SIZE), st2)

/-- `TaskStackAllocator::deallocate_stack` (src/memory.rs lines 106-124). -/
def TaskStackAllocator.deallocate_stack (st : TaskStackAllocator) (task_id : Nat) :
    Except KernelError Unit × TaskStackAllocator :=
  if task_id ≥ SystemConstants.MAX_TASKS then
    (Except.error KernelError.InvalidArgument, st)
  else if ! st.is_allocated task_id then
    (Except.error KernelError.NotFound, st)
  else
    (Except.ok (), ⟨fun i => if i = task_id then false else st.is_allocated i⟩)

-- ---------------------------------------------------------------------------
-- src/arch/amd64/console.rs : serial console CRLF translation
-- ---------------------------------------------------------------------------

/-- `SerialPort::write_byte` (src/arch/amd64/console.rs lines 75-83): after
the TX-empty busy wait, the byte is handed to the data port.  The transmit
path is modelled as the list of bytes written to the data port, in order. -/
def SerialPort.write_byte (out : List Nat) (byte : Nat) : List Nat :=
  out ++ [byte]

/-- `SerialPort::write_str` (src/arch/amd64/console.rs lines 89-102):
iterate over the bytes of the input; an LF (0x0A) is sent as CR (0x0D)
followed by LF; every other byte is sent unchanged. -/
def SerialPort.write_str (s : List Nat) (out : List Nat) : List Nat :=
  match s with
  | [] => out
  | byte :: rest =>
    let out2 :=
      if byte = 0x0A then
        SerialPort.write_byte (SerialPort.write_byte out 0x0D) 0x0A
      else
        SerialPort.write_byte out byte
    SerialPort.write_str rest out2

/-- Spec-side description of the console contract ("the bytes emitted on
the wire equal `s` with every `0x0A` replaced by `0x0D 0x0A`"), written
from the specification's words for comparison with the code. -/
def crlf_expand : List Nat → List Nat
  | [] => []
  | byte :: rest => (if byte = 0x0A then [0x0D, 0x0A] else [byte]) ++ crlf_expand rest

-- ---------------------------------------------------------------------------
-- src/arch/rv64i/exception.rs : trap dispatch
-- ---------------------------------------------------------------------------

/-- `ExceptionContext` (src/arch/rv64i/exception.rs lines 24-34): the 31
saved general-purpose registers and the saved CSR copies.  `u64` fields are
modelled as `Nat` values below `2 ^ 64`. -/
structure ExceptionContext where
  gpr : Nat → Nat
  SCAUSE : Nat
  SEPC : Nat
  STVAL : Nat
  SSTATUS : Nat

/-- `ExceptionCause` (src/arch/rv64i/exception.rs lines 40-54). -/
inductive ExceptionCause where
  | InstructionPageFault
  | LoadPageFault
  | StorePageFault
  | EnvironmentCallFromUMode
  | EnvironmentCallFromSMode
  | InstructionAccessFault
  | UnknownCause (v : Int)
  | SupervisorTimerInterrupt
  | SupervisorSoftwareInterrupt
  | SupervisorExternalInterrupt
deriving DecidableEq

/-- Reinterpret a `u64` value as an `i64`, as Rust's `as i64` cast does. -/
def u64_as_i64 (x : Nat) : Int :=
  if x ≥ 2 ^ 63 then (x : Int) - 2 ^ 64 else (x : Int)

/-- `ExceptionCause::from_scause` (src/arch/rv64i/exception.rs lines 57-76).
`(scause as i64) < 0` is the test `scause ≥ 2 ^ 63`, and masking with
`0x7FFFFFFFFFFFFFFF` keeps the low 63 bits, i.e. reduces modulo `2 ^ 63`. -/
def ExceptionCause.from_scause (scause : Nat) : ExceptionCause :=
  if scause ≥ 2 ^ 63 then
    match scause % 2 ^ 63 with
    | 1 => ExceptionCause.SupervisorSoftwareInterrupt
    | 5 => ExceptionCause.SupervisorTimerInterrupt
    | 9 => ExceptionCause.SupervisorExternalInterrupt
    | _ => ExceptionCause.UnknownCause (u64_as_i64 scause)
  else
    match scause with
    | 12 => ExceptionCause.InstructionPageFault
    | 13 => ExceptionCause.LoadPageFault
    | 15 => ExceptionCause.StorePageFault
    | 8 => ExceptionCause.EnvironmentCallFromUMode
    | 9 => ExceptionCause.EnvironmentCallFromSMode
    | 1 => ExceptionCause.InstructionAccessFault
    | _ => ExceptionCause.UnknownCause (u64_as_i64 scause)

/-- Observable outcome of `generic_trap_handler`: either the handler
returns (with the possibly updated context, which the trap epilogue then
restores), or it diverges into `panic!`.  The panic messages of the source
are not modelled. -/
inductive TrapResult where
  | resume (ctx : ExceptionContext)
  | panicked
deriving Inhabited

/-- `handle_interrupt` (src/arch/rv64i/exception.rs lines 126-143): all
branches are empty or commented out; the context is not modified and, as
the source notes, SEPC is deliberately not advanced for interrupts. -/
def handle_interrupt (context : ExceptionContext) (_cause : ExceptionCause) :
    ExceptionContext :=
  context

/-- `generic_trap_handler` (src/arch/rv64i/exception.rs lines 85-123).
Interrupts are delegated to `handle_interrupt`; page faults and unknown
synchronous exceptions `panic!`; environment calls advance the saved
`SEPC` by 4 (wrapping `u64` addition) and return. -/
def generic_trap_handler (context : ExceptionContext) : TrapResult :=
  match ExceptionCause.from_scause context.SCAUSE with
  | ExceptionCause.SupervisorSoftwareInterrupt
  | ExceptionCause.SupervisorTimerInterrupt
  | ExceptionCause.SupervisorExternalInterrupt =>
    TrapResult.resume (handle_interrupt context (ExceptionCause.from_scause context.SCAUSE))
  | ExceptionCause.LoadPageFault
  | ExceptionCause.StorePageFault
  | ExceptionCause.InstructionPageFault =>
    TrapResult.panicked
  | ExceptionCause.EnvironmentCallFromUMode
  | ExceptionCause.EnvironmentCallFromSMode =>
    TrapResult.resume { context with SEPC := (context.SEPC + 4) % 2 ^ 64 }
  | _ => TrapResult.panicked

-- ---------------------------------------------------------------------------
-- src/arch/rv64i/shutdown.rs : SBI system reset
-- ---------------------------------------------------------------------------

/-- `EID_SRST` (src/arch/rv64i/shutdown.rs): the SBI System Reset
extension id, ASCII "SRST". -/
def EID_SRST : Nat := 0x53525354

/-- `SRST_FUNCTION_SYSTEM_RESET` (src/arch/rv64i/shutdown.rs). -/
def SRST_FUNCTION_SYSTEM_RESET : Nat := 0x0

/-- `SRST_TYPE_SHUTDOWN` (src/arch/rv64i/shutdown.rs). -/
def SRST_TYPE_SHUTDOWN : Nat := 0x0

/-- `SRST_TYPE_COLD_REBOOT` (src/arch/rv64i/shutdown.rs). -/
def SRST_TYPE_COLD_REBOOT : Nat := 0x1

/-- `SRST_REASON_NONE` (src/arch/rv64i/shutdown.rs). -/
def SRST_REASON_NONE : Nat := 0x0

/-- The register assignment of one `ecall` as performed by `sbi_call`
(src/arch/rv64i/shutdown.rs lines 55-73): `a7 = eid`, `a6 = fid`,
`a0`-`a5` the arguments. -/
structure SbiCall where
  a7 : Nat
  a6 : Nat
  a0 : Nat
  a1 : Nat
  a2 : Nat
  a3 : Nat
  a4 : Nat
  a5 : Nat
deriving DecidableEq

/-- `sbi_call eid fid arg0 ... arg5` loads the registers exactly as the
inline assembly block does. -/
def sbi_call (eid fid arg0 arg1 arg2 arg3 arg4 arg5 : Nat) : SbiCall :=
  { a7 := eid, a6 := fid, a0 := arg0, a1 := arg1
    a2 := arg2, a3 := arg3, a4 := arg4, a5 := arg5 }

/-- Observable actions of the shutdown/reboot paths, in program order.
`halt` stands for `halt_loop` (disable interrupts, then `wfi` forever);
the serial log lines are not modelled. -/
inductive ShutdownEvent where
  | disable_interrupts
  | ecall (c : SbiCall)
  | halt
deriving DecidableEq

/-- `system_reboot` (src/arch/rv64i/shutdown.rs lines 81-101) as its trace
of observable actions: disable interrupts, SBI SRST cold reboot `ecall`,
then the fallback `halt_loop` (reached only if the `ecall` returns). -/
def shutdown.system_reboot : List ShutdownEvent :=
  [ ShutdownEvent.disable_interrupts,
    ShutdownEvent.ecall
      (sbi_call EID_SRST SRST_FUNCTION_SYSTEM_RESET SRST_TYPE_COLD_REBOOT
        SRST_REASON_NONE 0 0 0 0),
    ShutdownEvent.halt ]

/-- `system_shutdown` (src/arch/rv64i/shutdown.rs lines 108-128) as its
trace of observable actions. -/
def shutdown.system_shutdown : List ShutdownEvent :=
  [ ShutdownEvent.disable_interrupts,
    ShutdownEvent.ecall
      (sbi_call EID_SRST SRST_FUNCTION_SYSTEM_RESET SRST_TYPE_SHUTDOWN
        SRST_REASON_NONE 0 0 0 0),
    ShutdownEvent.halt ]

-- ---------------------------------------------------------------------------
-- src/arch/rv64i/mmu.rs : Sv39 boot-time page tables
-- ---------------------------------------------------------------------------

/-- `PAGE_SIZE` from src/arch/rv64i/mmu.rs: 4 KiB pages. -/
def PAGE_SIZE : Nat := 4096

/-- `TABLE_ENTRY_COUNT` from src/arch/rv64i/mmu.rs: 512 entries per table. -/
def TABLE_ENTRY_COUNT : Nat := 512

/-- `PageFlags::VALID`. -/
def PageFlags.VALID : Nat := 1
/-- `PageFlags::READ`. -/
def PageFlags.READ : Nat := 2
/-- `PageFlags::WRITE`. -/
def PageFlags.WRITE : Nat := 4
/-- `PageFlags::EXEC`. -/
def PageFlags.EXEC : Nat := 8
/-- `PageFlags::USER`. -/
def PageFlags.USER : Nat := 16
/-- `PageFlags::GLOBAL`. -/
def PageFlags.GLOBAL : Nat := 32
/-- `PageFlags::ACCESSED`. -/
def PageFlags.ACCESSED : Nat := 64
/-- `PageFlags::DIRTY`. -/
def PageFlags.DIRTY : Nat := 128
/-- `PageFlags::PPN_MASK`: bits 10..53 of a PTE. -/
def PageFlags.PPN_MASK : Nat := 0x003FFFFFFFFFFC00

/-- Link-time address of the static `L1_TABLE` buffer inside
`setup_initial_paging`.  The linker places the kernel image at the RV64
RAM base `0x8000_0000`; the exact address does not matter for any claim
as long as the two static page buffers are page-aligned, distinct, and
outside the low 16 MiB that the code tries to map, so the model fixes a
representative choice. -/
def L1_TABLE_ADDR : Nat := 0x80000000

/-- Link-time address of the static `PAGE_TABLE_MOCK` buffer inside
`alloc_page_table`.  Note that the source declares this buffer `static`,
so every call of `alloc_page_table` returns this same single page. -/
def PAGE_TABLE_MOCK_ADDR : Nat := 0x80001000

/-- Does byte address `a` fall inside the 4 KiB page starting at `base`? -/
def inPage (base a : Nat) : Bool :=
  Nat.ble base a && Nat.blt a (base + PAGE_SIZE)

/-- One journal of 64-bit memory writes: newest first, keyed by byte
address.  Absent addresses read as zero (statics are zero-initialised and
RAM is taken zero-filled, as on the QEMU virt machine the code targets). -/
def lookupJ : List (Nat × Nat) → Nat → Option Nat
  | [], _ => none
  | (a, v) :: rest, k => if a = k then some v else lookupJ rest k

/-- The machine memory state used by the page-table construction.  All
accesses performed by src/arch/rv64i/mmu.rs are 8-byte table entries, and
they fall into three disjoint regions: the static `L1_TABLE` page, the
static `PAGE_TABLE_MOCK` page, and the rest of RAM; each region keeps its
own write journal. -/
structure Mem where
  l1 : List (Nat × Nat)
  mock : List (Nat × Nat)
  other : List (Nat × Nat)

/-- The memory state at kernel entry: nothing written yet, everything
reads as zero. -/
def initMem : Mem := ⟨[], [], []⟩

/-- Read the 64-bit entry at byte address `a`. -/
def mem_read (m : Mem) (a : Nat) : Nat :=
  if inPage L1_TABLE_ADDR a then (lookupJ m.l1 a).getD 0
  else if inPage PAGE_TABLE_MOCK_ADDR a then (lookupJ m.mock a).getD 0
  else (lookupJ m.other a).getD 0

/-- Write the 64-bit entry at byte address `a`. -/
def mem_write (m : Mem) (a v : Nat) : Mem :=
  if inPage L1_TABLE_ADDR a then { m with l1 := (a, v) :: m.l1 }
  else if inPage PAGE_TABLE_MOCK_ADDR a then { m with mock := (a, v) :: m.mock }
  else { m with other := (a, v) :: m.other }

/-- `table.entries.iter_mut().for_each(|e| *e = PageTableEntry::zero())`:
zeroing all 512 entries of one of the two static table pages is modelled
by resetting that page's journal, after which every address of the page
reads zero - exactly the observable effect of the 512 zero stores (the
theorem `zero_table_read` below checks this reading).  For any other base
the 512 stores are performed one by one. -/
def zero_table (m : Mem) (base : Nat) : Mem :=
  if base = L1_TABLE_ADDR then { m with l1 := [] }
  else if base = PAGE_TABLE_MOCK_ADDR then { m with mock := [] }
  else (List.range TABLE_ENTRY_COUNT).foldl (fun m i => mem_write m (base + 8 * i) 0) m

/-- `PageTableEntry::is_valid`: bit 0 (`VALID`) is set. -/
def PageTableEntry.is_valid (e : Nat) : Bool :=
  Nat.land e PageFlags.VALID != 0

/-- `PageTableEntry::new_table(addr)`: PPN = addr / PAGE_SIZE shifted to
bit 10, only `VALID` set (u64 arithmetic). -/
def PageTableEntry.new_table (addr : Nat) : Nat :=
  Nat.lor (((addr / PAGE_SIZE) <<< 10) % 2 ^ 64) PageFlags.VALID

/-- `PageTableEntry::new_page(addr, flags)`: PPN at bit 10, the given
flags, and `VALID` (u64 arithmetic). -/
def PageTableEntry.new_page (addr flags : Nat) : Nat :=
  Nat.lor (Nat.lor (((addr / PAGE_SIZE) <<< 10) % 2 ^ 64) flags) PageFlags.VALID

/-- `(entry.0 & PPN_MASK) << 2`: the physical address a table entry points
to, as decoded in `map_page`. -/
def pte_next_addr (e : Nat) : Nat :=
  ((Nat.land e PageFlags.PPN_MASK) <<< 2) % 2 ^ 64

/-- `get_indices` (src/arch/rv64i/mmu.rs lines 87-96): the three 9-bit
Sv39 table indices of a virtual address. -/
def get_indices (virtual_addr : Nat) : Nat × Nat × Nat :=
  (Nat.land (virtual_addr >>> 30) 0x1FF,
   Nat.land (virtual_addr >>> 21) 0x1FF,
   Nat.land (virtual_addr >>> 12) 0x1FF)

/-- `alloc_page_table` (src/arch/rv64i/mmu.rs lines 99-108): "allocate" a
page table by zeroing the single static mock page and returning its
address - every call returns the same page. -/
def alloc_page_table (m : Mem) : Mem × Nat :=
  (zero_table m PAGE_TABLE_MOCK_ADDR, PAGE_TABLE_MOCK_ADDR)

/-- `map_page` (src/arch/rv64i/mmu.rs lines 112-152).  Walks or builds the
L1 -> L2 -> L3 chain for `virtual_addr` and writes the 4 KiB leaf entry.
As in the source, a missing level is "allocated" (zeroing the mock page)
before the parent entry is updated, and the leaf write goes through
whatever address the decoded entry yields. -/
def map_page (m0 : Mem) (root_table_addr virtual_addr physical_addr flags : Nat) : Mem :=
  let idx := get_indices virtual_addr
  let l1i := idx.1
  let l2i := idx.2.1
  let l3i := idx.2.2
  let l2_entry := mem_read m0 (root_table_addr + 8 * l1i)
  let step1 : Mem × Nat :=
    if PageTableEntry.is_valid l2_entry then
      (m0, pte_next_addr l2_entry)
    else
      let an := alloc_page_table m0
      (mem_write an.1 (root_table_addr + 8 * l1i) (PageTableEntry.new_table an.2), an.2)
  let m1 := step1.1
  let l2_addr := step1.2
  let l3_entry := mem_read m1 (l2_addr + 8 * l2i)
  let step2 : Mem × Nat :=
    if PageTableEntry.is_valid l3_entry then
      (m1, pte_next_addr l3_entry)
    else
      let an := alloc_page_table m1
      (mem_write an.1 (l2_addr + 8 * l2i) (PageTableEntry.new_table an.2), an.2)
  let m2 := step2.1
  let l3_addr := step2.2
  mem_write m2 (l3_addr + 8 * l3i) (PageTableEntry.new_page physical_addr flags)

/-- The kernel mapping flags of `setup_initial_paging`:
READ | WRITE | EXEC | GLOBAL | ACCESSED | DIRTY. -/
def kernel_flags : Nat :=
  Nat.lor (Nat.lor (Nat.lor (Nat.lor (Nat.lor PageFlags.READ PageFlags.WRITE)
    PageFlags.EXEC) PageFlags.GLOBAL) PageFlags.ACCESSED) PageFlags.DIRTY

/-- `identity_mapping_size` from `setup_initial_paging`: 16 MiB. -/
def identity_mapping_size : Nat := 16 * 1024 * 1024

/-- The mapping loop of `setup_initial_paging`:
`for addr in (start..).step_by(PAGE_SIZE)` for `count` pages, identity
mapping each page with the kernel flags. -/
def runPages (start count : Nat) (m : Mem) : Mem :=
  (List.range' start count PAGE_SIZE).foldl
    (fun m addr => map_page m L1_TABLE_ADDR addr addr kernel_flags) m

/-- `setup_initial_paging` (src/arch/rv64i/mmu.rs lines 174-206): zero the
static L1 root table, identity-map the first 16 MiB page by page, and
return the root table address. -/
def setup_initial_paging : Mem × Nat :=
  let m := zero_table initMem L1_TABLE_ADDR
  (runPages 0 (identity_mapping_size / PAGE_SIZE) m, L1_TABLE_ADDR)

/-- The Sv39 walk described by claim C3: from the root table, index with
the L1, L2 and L3 indices of `virtual_addr`, decoding each entry's target
with the PPN extraction of `map_page`; stop with `none` at the first
invalid entry, else return the leaf entry. -/
def sv39_walk (m : Mem) (root virtual_addr : Nat) : Option Nat :=
  let idx := get_indices virtual_addr
  let e1 := mem_read m (root + 8 * idx.1)
  if ! PageTableEntry.is_valid e1 then none else
  let e2 := mem_read m (pte_next_addr e1 + 8 * idx.2.1)
  if ! PageTableEntry.is_valid e2 then none else
  let e3 := mem_read m (pte_next_addr e2 + 8 * idx.2.2)
  if ! PageTableEntry.is_valid e3 then none else
  some e3

/-- The L1 journal after the first `map_page`: one entry, pointing the
root's slot 0 at the mock page.  It never changes afterwards. -/
def mmuL1Final : List (Nat × Nat) :=
  [(L1_TABLE_ADDR, PageTableEntry.new_table PAGE_TABLE_MOCK_ADDR)]

/-- A descending run of identity-map leaf writes as the loop journals
them in RAM outside the two static pages: for `i` from `lo + n - 1` down
to `lo`, the entry at byte address `T + 8 * i` holds
`new_page (base + i * 4096)`. -/
def segDesc (T base lo n : Nat) : List (Nat × Nat) :=
  (List.range n).map (fun i =>
    (T + 8 * (lo + n - 1 - i),
     PageTableEntry.new_page (base + (lo + n - 1 - i) * 4096) kernel_flags))

/-- The mock-page journal from the first chunk of 2 MiB block 0 until the
next block starts: the aliased writes of the identity-map loop. -/
def mockBlock_0 : List (Nat × Nat) :=
  [(0x80001000, PageTableEntry.new_page 0x0 kernel_flags),
   (0x80001000, PageTableEntry.new_table 0x80001000)]

/-- The mock-page journal from the first chunk of 2 MiB block 1 until the
next block starts: the aliased writes of the identity-map loop. -/
def mockBlock_1 : List (Nat × Nat) :=
  [(0x80001008, PageTableEntry.new_page 0x201000 kernel_flags),
   (0x80001000, PageTableEntry.new_page 0x200000 kernel_flags),
   (0x80001008, PageTableEntry.new_table 0x80001000)]

/-- The mock-page journal from the first chunk of 2 MiB block 2 until the
next block starts: the aliased writes of the identity-map loop. -/
def mockBlock_2 : List (Nat × Nat) :=
  [(0x80001010, PageTableEntry.new_page 0x402000 kernel_flags),
   (0x80001008, PageTableEntry.new_page 0x401000 kernel_flags),
   (0x80001000, PageTableEntry.new_page 0x400000 kernel_flags),
   (0x80001010, PageTableEntry.new_table 0x80001000)]

/-- The mock-page journal from the first chunk of 2 MiB block 3 until the
next block starts: the aliased writes of the identity-map loop. -/
def mockBlock_3 : List (Nat × Nat) :=
  [(0x80001018, PageTableEntry.new_page 0x603000 kernel_flags),
   (0x80001010, PageTableEntry.new_page 0x602000 kernel_flags),
   (0x80001008, PageTableEntry.new_page 0x601000 kernel_flags),
   (0x80001000, PageTableEntry.new_page 0x600000 kernel_flags),
   (0x80001018, PageTableEntry.new_table 0x80001000)]

/-- The mock-page journal from the first chunk of 2 MiB block 4 until the
next block starts: the aliased writes of the identity-map loop. -/
def mockBlock_4 : List (Nat × Nat) :=
  [(0x80001020, PageTableEntry.new_page 0x804000 kernel_flags),
   (0x80001018, PageTableEntry.new_page 0x803000 kernel_flags),
   (0x80001010, PageTableEntry.new_page 0x802000 kernel_flags),
   (0x80001008, PageTableEntry.new_page 0x801000 kernel_flags),
   (0x80001000, PageTableEntry.new_page 0x800000 kernel_flags),
   (0x80001020, PageTableEntry.new_table 0x80001000)]

/-- The mock-page journal from the first chunk of 2 MiB block 5 until the
next block starts: the aliased writes of the identity-map loop. -/
def mockBlock_5 : List (Nat × Nat) :=
  [(0x80001028, PageTableEntry.new_page 0xA05000 kernel_flags),
   (0x80001020, PageTableEntry.new_page 0xA04000 kernel_flags),
   (0x80001018, PageTableEntry.new_page 0xA03000 kernel_flags),
   (0x80001010, PageTableEntry.new_page 0xA02000 kernel_flags),
   (0x80001008, PageTableEntry.new_page 0xA01000 kernel_flags),
   (0x80001000, PageTableEntry.new_page 0xA00000 kernel_flags),
   (0x80001028, PageTableEntry.new_table 0x80001000)]

/-- The mock-page journal from the first chunk of 2 MiB block 6 until the
next block starts: the aliased writes of the identity-map loop. -/
def mockBlock_6 : List (Nat × Nat) :=
  [(0x80001030, PageTableEntry.new_page 0xC06000 kernel_flags),
   (0x80001028, PageTableEntry.new_page 0xC05000 kernel_flags),
   (0x80001020, PageTableEntry.new_page 0xC04000 kernel_flags),
   (0x80001018, PageTableEntry.new_page 0xC03000 kernel_flags),
   (0x80001010, PageTableEntry.new_page 0xC02000 kernel_flags),
   (0x80001008, PageTableEntry.new_page 0xC01000 kernel_flags),
   (0x80001000, PageTableEntry.new_page 0xC00000 kernel_flags),
   (0x80001030, PageTableEntry.new_table 0x80001000)]

/-- The mock-page journal from the first chunk of 2 MiB block 7 until the
next block starts: the aliased writes of the identity-map loop. -/
def mockBlock_7 : List (Nat × Nat) :=
  [(0x80001038, PageTableEntry.new_page 0xE07000 kernel_flags),
   (0x80001030, PageTableEntry.new_page 0xE06000 kernel_flags),
   (0x80001028, PageTableEntry.new_page 0xE05000 kernel_flags),
   (0x80001020, PageTableEntry.new_page 0xE04000 kernel_flags),
   (0x80001018, PageTableEntry.new_page 0xE03000 kernel_flags),
   (0x80001010, PageTableEntry.new_page 0xE02000 kernel_flags),
   (0x80001008, PageTableEntry.new_page 0xE01000 kernel_flags),
   (0x80001000, PageTableEntry.new_page 0xE00000 kernel_flags),
   (0x80001038, PageTableEntry.new_table 0x80001000)]

/-- RAM journal (outside the two static pages) after chunk 0 of the
identity-map loop (pages 0..31). -/
def mmuJ_0 : List (Nat × Nat) :=
  segDesc 0x0 0x0 1 31

/-- RAM journal after chunk 1 of the identity-map loop. -/
def mmuJ_1 : List (Nat × Nat) :=
  segDesc 0x0 0x0 32 32 ++ mmuJ_0

/-- RAM journal after chunk 2 of the identity-map loop. -/
def mmuJ_2 : List (Nat × Nat) :=
  segDesc 0x0 0x0 64 32 ++ mmuJ_1

/-- RAM journal after chunk 3 of the identity-map loop. -/
def mmuJ_3 : List (Nat × Nat) :=
  segDesc 0x0 0x0 96 32 ++ mmuJ_2

/-- RAM journal after chunk 4 of the identity-map loop. -/
def mmuJ_4 : List (Nat × Nat) :=
  segDesc 0x0 0x0 128 32 ++ mmuJ_3

/-- RAM journal after chunk 5 of the identity-map loop. -/
def mmuJ_5 : List (Nat × Nat) :=
  segDesc 0x0 0x0 160 32 ++ mmuJ_4

/-- RAM journal after chunk 6 of the identity-map loop. -/
def mmuJ_6 : List (Nat × Nat) :=
  segDesc 0x0 0x0 192 32 ++ mmuJ_5

/-- RAM journal after chunk 7 of the identity-map loop. -/
def mmuJ_7 : List (Nat × Nat) :=
  segDesc 0x0 0x0 224 32 ++ mmuJ_6

/-- RAM journal after chunk 8 of the identity-map loop. -/
def mmuJ_8 : List (Nat × Nat) :=
  segDesc 0x0 0x0 256 32 ++ mmuJ_7

/-- RAM journal after chunk 9 of the identity-map loop. -/
def mmuJ_9 : List (Nat × Nat) :=
  segDesc 0x0 0x0 288 32 ++ mmuJ_8

/-- RAM journal after chunk 10 of the identity-map loop. -/
def mmuJ_10 : List (Nat × Nat) :=
  segDesc 0x0 0x0 320 32 ++ mmuJ_9

/-- RAM journal after chunk 11 of the identity-map loop. -/
def mmuJ_11 : List (Nat × Nat) :=
  segDesc 0x0 0x0 352 32 ++ mmuJ_10

/-- RAM journal after chunk 12 of the identity-map loop. -/
def mmuJ_12 : List (Nat × Nat) :=
  segDesc 0x0 0x0 384 32 ++ mmuJ_11

/-- RAM journal after chunk 13 of the identity-map loop. -/
def mmuJ_13 : List (Nat × Nat) :=
  segDesc 0x0 0x0 416 32 ++ mmuJ_12

/-- RAM journal after chunk 14 of the identity-map loop. -/
def mmuJ_14 : List (Nat × Nat) :=
  segDesc 0x0 0x0 448 32 ++ mmuJ_13

/-- RAM journal after chunk 15 of the identity-map loop. -/
def mmuJ_15 : List (Nat × Nat) :=
  segDesc 0x0 0x0 480 32 ++ mmuJ_14

/-- RAM journal after chunk 16 of the identity-map loop. -/
def mmuJ_16 : List (Nat × Nat) :=
  segDesc 0x201000 0x200000 2 30 ++ mmuJ_15

/-- RAM journal after chunk 17 of the identity-map loop. -/
def mmuJ_17 : List (Nat × Nat) :=
  segDesc 0x201000 0x200000 32 32 ++ mmuJ_16

/-- RAM journal after chunk 18 of the identity-map loop. -/
def mmuJ_18 : List (Nat × Nat) :=
  segDesc 0x201000 0x200000 64 32 ++ mmuJ_17

/-- RAM journal after chunk 19 of the identity-map loop. -/
def mmuJ_19 : List (Nat × Nat) :=
  segDesc 0x201000 0x200000 96 32 ++ mmuJ_18

/-- RAM journal after chunk 20 of the identity-map loop. -/
def mmuJ_20 : List (Nat × Nat) :=
  segDesc 0x201000 0x200000 128 32 ++ mmuJ_19

/-- RAM journal after chunk 21 of the identity-map loop. -/
def mmuJ_21 : List (Nat × Nat) :=
  segDesc 0x201000 0x200000 160 32 ++ mmuJ_20

/-- RAM journal after chunk 22 of the identity-map loop. -/
def mmuJ_22 : List (Nat × Nat) :=
  segDesc 0x201000 0x200000 192 32 ++ mmuJ_21

/-- RAM journal after chunk 23 of the identity-map loop. -/
def mmuJ_23 : List (Nat × Nat) :=
  segDesc 0x201000 0x200000 224 32 ++ mmuJ_22

/-- RAM journal after chunk 24 of the identity-map loop. -/
def mmuJ_24 : List (Nat × Nat) :=
  segDesc 0x201000 0x200000 256 32 ++ mmuJ_23

/-- RAM journal after chunk 25 of the identity-map loop. -/
def mmuJ_25 : List (Nat × Nat) :=
  segDesc 0x201000 0x200000 288 32 ++ mmuJ_24

/-- RAM journal after chunk 26 of the identity-map loop. -/
def mmuJ_26 : List (Nat × Nat) :=
  segDesc 0x201000 0x200000 320 32 ++ mmuJ_25

/-- RAM journal after chunk 27 of the identity-map loop. -/
def mmuJ_27 : List (Nat × Nat) :=
  segDesc 0x201000 0x200000 352 32 ++ mmuJ_26

/-- RAM journal after chunk 28 of the identity-map loop. -/
def mmuJ_28 : List (Nat × Nat) :=
  segDesc 0x201000 0x200000 384 32 ++ mmuJ_27

/-- RAM journal after chunk 29 of the identity-map loop. -/
def mmuJ_29 : List (Nat × Nat) :=
  segDesc 0x201000 0x200000 416 32 ++ mmuJ_28

/-- RAM journal after chunk 30 of the identity-map loop. -/
def mmuJ_30 : List (Nat × Nat) :=
  segDesc 0x201000 0x200000 448 32 ++ mmuJ_29

/-- RAM journal after chunk 31 of the identity-map loop. -/
def mmuJ_31 : List (Nat × Nat) :=
  segDesc 0x201000 0x200000 480 32 ++ mmuJ_30

/-- RAM journal after chunk 32 of the identity-map loop. -/
def mmuJ_32 : List (Nat × Nat) :=
  segDesc 0x402000 0x400000 3 29 ++ mmuJ_31

/-- RAM journal after chunk 33 of the identity-map loop. -/
def mmuJ_33 : List (Nat × Nat) :=
  segDesc 0x402000 0x400000 32 32 ++ mmuJ_32

/-- RAM journal after chunk 34 of the identity-map loop. -/
def mmuJ_34 : List (Nat × Nat) :=
  segDesc 0x402000 0x400000 64 32 ++ mmuJ_33

/-- RAM journal after chunk 35 of the identity-map loop. -/
def mmuJ_35 : List (Nat × Nat) :=
  segDesc 0x402000 0x400000 96 32 ++ mmuJ_34

/-- RAM journal after chunk 36 of the identity-map loop. -/
def mmuJ_36 : List (Nat × Nat) :=
  segDesc 0x402000 0x400000 128 32 ++ mmuJ_35

/-- RAM journal after chunk 37 of the identity-map loop. -/
def mmuJ_37 : List (Nat × Nat) :=
  segDesc 0x402000 0x400000 160 32 ++ mmuJ_36

/-- RAM journal after chunk 38 of the identity-map loop. -/
def mmuJ_38 : List (Nat × Nat) :=
  segDesc 0x402000 0x400000 192 32 ++ mmuJ_37

/-- RAM journal after chunk 39 of the identity-map loop. -/
def mmuJ_39 : List (Nat × Nat) :=
  segDesc 0x402000 0x400000 224 32 ++ mmuJ_38

/-- RAM journal after chunk 40 of the identity-map loop. -/
def mmuJ_40 : List (Nat × Nat) :=
  segDesc 0x402000 0x400000 256 32 ++ mmuJ_39

/-- RAM journal after chunk 41 of the identity-map loop. -/
def mmuJ_41 : List (Nat × Nat) :=
  segDesc 0x402000 0x400000 288 32 ++ mmuJ_40

/-- RAM journal after chunk 42 of the identity-map loop. -/
def mmuJ_42 : List (Nat × Nat) :=
  segDesc 0x402000 0x400000 320 32 ++ mmuJ_41

/-- RAM journal after chunk 43 of the identity-map loop. -/
def mmuJ_43 : List (Nat × Nat) :=
  segDesc 0x402000 0x400000 352 32 ++ mmuJ_42

/-- RAM journal after chunk 44 of the identity-map loop. -/
def mmuJ_44 : List (Nat × Nat) :=
  segDesc 0x402000 0x400000 384 32 ++ mmuJ_43

/-- RAM journal after chunk 45 of the identity-map loop. -/
def mmuJ_45 : List (Nat × Nat) :=
  segDesc 0x402000 0x400000 416 32 ++ mmuJ_44

/-- RAM journal after chunk 46 of the identity-map loop. -/
def mmuJ_46 : List (Nat × Nat) :=
  segDesc 0x402000 0x400000 448 32 ++ mmuJ_45

/-- RAM journal after chunk 47 of the identity-map loop. -/
def mmuJ_47 : List (Nat × Nat) :=
  segDesc 0x402000 0x400000 480 32 ++ mmuJ_46

/-- RAM journal after chunk 48 of the identity-map loop. -/
def mmuJ_48 : List (Nat × Nat) :=
  segDesc 0x603000 0x600000 4 28 ++ mmuJ_47

/-- RAM journal after chunk 49 of the identity-map loop. -/
def mmuJ_49 : List (Nat × Nat) :=
  segDesc 0x603000 0x600000 32 32 ++ mmuJ_48

/-- RAM journal after chunk 50 of the identity-map loop. -/
def mmuJ_50 : List (Nat × Nat) :=
  segDesc 0x603000 0x600000 64 32 ++ mmuJ_49

/-- RAM journal after chunk 51 of the identity-map loop. -/
def mmuJ_51 : List (Nat × Nat) :=
  segDesc 0x603000 0x600000 96 32 ++ mmuJ_50

/-- RAM journal after chunk 52 of the identity-map loop. -/
def mmuJ_52 : List (Nat × Nat) :=
  segDesc 0x603000 0x600000 128 32 ++ mmuJ_51

/-- RAM journal after chunk 53 of the identity-map loop. -/
def mmuJ_53 : List (Nat × Nat) :=
  segDesc 0x603000 0x600000 160 32 ++ mmuJ_52

/-- RAM journal after chunk 54 of the identity-map loop. -/
def mmuJ_54 : List (Nat × Nat) :=
  segDesc 0x603000 0x600000 192 32 ++ mmuJ_53

/-- RAM journal after chunk 55 of the identity-map loop. -/
def mmuJ_55 : List (Nat × Nat) :=
  segDesc 0x603000 0x600000 224 32 ++ mmuJ_54

/-- RAM journal after chunk 56 of the identity-map loop. -/
def mmuJ_56 : List (Nat × Nat) :=
  segDesc 0x603000 0x600000 256 32 ++ mmuJ_55

/-- RAM journal after chunk 57 of the identity-map loop. -/
def mmuJ_57 : List (Nat × Nat) :=
  segDesc 0x603000 0x600000 288 32 ++ mmuJ_56

/-- RAM journal after chunk 58 of the identity-map loop. -/
def mmuJ_58 : List (Nat × Nat) :=
  segDesc 0x603000 0x600000 320 32 ++ mmuJ_57

/-- RAM journal after chunk 59 of the identity-map loop. -/
def mmuJ_59 : List (Nat × Nat) :=
  segDesc 0x603000 0x600000 352 32 ++ mmuJ_58

/-- RAM journal after chunk 60 of the identity-map loop. -/
def mmuJ_60 : List (Nat × Nat) :=
  segDesc 0x603000 0x600000 384 32 ++ mmuJ_59

/-- RAM journal after chunk 61 of the identity-map loop. -/
def mmuJ_61 : List (Nat × Nat) :=
  segDesc 0x603000 0x600000 416 32 ++ mmuJ_60

/-- RAM journal after chunk 62 of the identity-map loop. -/
def mmuJ_62 : List (Nat × Nat) :=
  segDesc 0x603000 0x600000 448 32 ++ mmuJ_61

/-- RAM journal after chunk 63 of the identity-map loop. -/
def mmuJ_63 : List (Nat × Nat) :=
  segDesc 0x603000 0x600000 480 32 ++ mmuJ_62

/-- RAM journal after chunk 64 of the identity-map loop. -/
def mmuJ_64 : List (Nat × Nat) :=
  segDesc 0x804000 0x800000 5 27 ++ mmuJ_63

/-- RAM journal after chunk 65 of the identity-map loop. -/
def mmuJ_65 : List (Nat × Nat) :=
  segDesc 0x804000 0x800000 32 32 ++ mmuJ_64

/-- RAM journal after chunk 66 of the identity-map loop. -/
def mmuJ_66 : List (Nat × Nat) :=
  segDesc 0x804000 0x800000 64 32 ++ mmuJ_65

/-- RAM journal after chunk 67 of the identity-map loop. -/
def mmuJ_67 : List (Nat × Nat) :=
  segDesc 0x804000 0x800000 96 32 ++ mmuJ_66

/-- RAM journal after chunk 68 of the identity-map loop. -/
def mmuJ_68 : List (Nat × Nat) :=
  segDesc 0x804000 0x800000 128 32 ++ mmuJ_67

/-- RAM journal after chunk 69 of the identity-map loop. -/
def mmuJ_69 : List (Nat × Nat) :=
  segDesc 0x804000 0x800000 160 32 ++ mmuJ_68

/-- RAM journal after chunk 70 of the identity-map loop. -/
def mmuJ_70 : List (Nat × Nat) :=
  segDesc 0x804000 0x800000 192 32 ++ mmuJ_69

/-- RAM journal after chunk 71 of the identity-map loop. -/
def mmuJ_71 : List (Nat × Nat) :=
  segDesc 0x804000 0x800000 224 32 ++ mmuJ_70

/-- RAM journal after chunk 72 of the identity-map loop. -/
def mmuJ_72 : List (Nat × Nat) :=
  segDesc 0x804000 0x800000 256 32 ++ mmuJ_71

/-- RAM journal after chunk 73 of the identity-map loop. -/
def mmuJ_73 : List (Nat × Nat) :=
  segDesc 0x804000 0x800000 288 32 ++ mmuJ_72

/-- RAM journal after chunk 74 of the identity-map loop. -/
def mmuJ_74 : List (Nat × Nat) :=
  segDesc 0x804000 0x800000 320 32 ++ mmuJ_73

/-- RAM journal after chunk 75 of the identity-map loop. -/
def mmuJ_75 : List (Nat × Nat) :=
  segDesc 0x804000 0x800000 352 32 ++ mmuJ_74

/-- RAM journal after chunk 76 of the identity-map loop. -/
def mmuJ_76 : List (Nat × Nat) :=
  segDesc 0x804000 0x800000 384 32 ++ mmuJ_75

/-- RAM journal after chunk 77 of the identity-map loop. -/
def mmuJ_77 : List (Nat × Nat) :=
  segDesc 0x804000 0x800000 416 32 ++ mmuJ_76

/-- RAM journal after chunk 78 of the identity-map loop. -/
def mmuJ_78 : List (Nat × Nat) :=
  segDesc 0x804000 0x800000 448 32 ++ mmuJ_77

/-- RAM journal after chunk 79 of the identity-map loop. -/
def mmuJ_79 : List (Nat × Nat) :=
  segDesc 0x804000 0x800000 480 32 ++ mmuJ_78

/-- RAM journal after chunk 80 of the identity-map loop. -/
def mmuJ_80 : List (Nat × Nat) :=
  segDesc 0xA05000 0xA00000 6 26 ++ mmuJ_79

/-- RAM journal after chunk 81 of the identity-map loop. -/
def mmuJ_81 : List (Nat × Nat) :=
  segDesc 0xA05000 0xA00000 32 32 ++ mmuJ_80

/-- RAM journal after chunk 82 of the identity-map loop. -/
def mmuJ_82 : List (Nat × Nat) :=
  segDesc 0xA05000 0xA00000 64 32 ++ mmuJ_81

/-- RAM journal after chunk 83 of the identity-map loop. -/
def mmuJ_83 : List (Nat × Nat) :=
  segDesc 0xA05000 0xA00000 96 32 ++ mmuJ_82

/-- RAM journal after chunk 84 of the identity-map loop. -/
def mmuJ_84 : List (Nat × Nat) :=
  segDesc 0xA05000 0xA00000 128 32 ++ mmuJ_83

/-- RAM journal after chunk 85 of the identity-map loop. -/
def mmuJ_85 : List (Nat × Nat) :=
  segDesc 0xA05000 0xA00000 160 32 ++ mmuJ_84

/-- RAM journal after chunk 86 of the identity-map loop. -/
def mmuJ_86 : List (Nat × Nat) :=
  segDesc 0xA05000 0xA00000 192 32 ++ mmuJ_85

/-- RAM journal after chunk 87 of the identity-map loop. -/
def mmuJ_87 : List (Nat × Nat) :=
  segDesc 0xA05000 0xA00000 224 32 ++ mmuJ_86

/-- RAM journal after chunk 88 of the identity-map loop. -/
def mmuJ_88 : List (Nat × Nat) :=
  segDesc 0xA05000 0xA00000 256 32 ++ mmuJ_87

/-- RAM journal after chunk 89 of the identity-map loop. -/
def mmuJ_89 : List (Nat × Nat) :=
  segDesc 0xA05000 0xA00000 288 32 ++ mmuJ_88

/-- RAM journal after chunk 90 of the identity-map loop. -/
def mmuJ_90 : List (Nat × Nat) :=
  segDesc 0xA05000 0xA00000 320 32 ++ mmuJ_89

/-- RAM journal after chunk 91 of the identity-map loop. -/
def mmuJ_91 : List (Nat × Nat) :=
  segDesc 0xA05000 0xA00000 352 32 ++ mmuJ_90

/-- RAM journal after chunk 92 of the identity-map loop. -/
def mmuJ_92 : List (Nat × Nat) :=
  segDesc 0xA05000 0xA00000 384 32 ++ mmuJ_91

/-- RAM journal after chunk 93 of the identity-map loop. -/
def mmuJ_93 : List (Nat × Nat) :=
  segDesc 0xA05000 0xA00000 416 32 ++ mmuJ_92

/-- RAM journal after chunk 94 of the identity-map loop. -/
def mmuJ_94 : List (Nat × Nat) :=
  segDesc 0xA05000 0xA00000 448 32 ++ mmuJ_93

/-- RAM journal after chunk 95 of the identity-map loop. -/
def mmuJ_95 : List (Nat × Nat) :=
  segDesc 0xA05000 0xA00000 480 32 ++ mmuJ_94

/-- RAM journal after chunk 96 of the identity-map loop. -/
def mmuJ_96 : List (Nat × Nat) :=
  segDesc 0xC06000 0xC00000 7 25 ++ mmuJ_95

/-- RAM journal after chunk 97 of the identity-map loop. -/
def mmuJ_97 : List (Nat × Nat) :=
  segDesc 0xC06000 0xC00000 32 32 ++ mmuJ_96

/-- RAM journal after chunk 98 of the identity-map loop. -/
def mmuJ_98 : List (Nat × Nat) :=
  segDesc 0xC06000 0xC00000 64 32 ++ mmuJ_97

/-- RAM journal after chunk 99 of the identity-map loop. -/
def mmuJ_99 : List (Nat × Nat) :=
  segDesc 0xC06000 0xC00000 96 32 ++ mmuJ_98

/-- RAM journal after chunk 100 of the identity-map loop. -/
def mmuJ_100 : List (Nat × Nat) :=
  segDesc 0xC06000 0xC00000 128 32 ++ mmuJ_99

/-- RAM journal after chunk 101 of the identity-map loop. -/
def mmuJ_101 : List (Nat × Nat) :=
  segDesc 0xC06000 0xC00000 160 32 ++ mmuJ_100

/-- RAM journal after chunk 102 of the identity-map loop. -/
def mmuJ_102 : List (Nat × Nat) :=
  segDesc 0xC06000 0xC00000 192 32 ++ mmuJ_101

/-- RAM journal after chunk 103 of the identity-map loop. -/
def mmuJ_103 : List (Nat × Nat) :=
  segDesc 0xC06000 0xC00000 224 32 ++ mmuJ_102

/-- RAM journal after chunk 104 of the identity-map loop. -/
def mmuJ_104 : List (Nat × Nat) :=
  segDesc 0xC06000 0xC00000 256 32 ++ mmuJ_103

/-- RAM journal after chunk 105 of the identity-map loop. -/
def mmuJ_105 : List (Nat × Nat) :=
  segDesc 0xC06000 0xC00000 288 32 ++ mmuJ_104

/-- RAM journal after chunk 106 of the identity-map loop. -/
def mmuJ_106 : List (Nat × Nat) :=
  segDesc 0xC06000 0xC00000 320 32 ++ mmuJ_105

/-- RAM journal after chunk 107 of the identity-map loop. -/
def mmuJ_107 : List (Nat × Nat) :=
  segDesc 0xC06000 0xC00000 352 32 ++ mmuJ_106

/-- RAM journal after chunk 108 of the identity-map loop. -/
def mmuJ_108 : List (Nat × Nat) :=
  segDesc 0xC06000 0xC00000 384 32 ++ mmuJ_107

/-- RAM journal after chunk 109 of the identity-map loop. -/
def mmuJ_109 : List (Nat × Nat) :=
  segDesc 0xC06000 0xC00000 416 32 ++ mmuJ_108

/-- RAM journal after chunk 110 of the identity-map loop. -/
def mmuJ_110 : List (Nat × Nat) :=
  segDesc 0xC06000 0xC00000 448 32 ++ mmuJ_109

/-- RAM journal after chunk 111 of the identity-map loop. -/
def mmuJ_111 : List (Nat × Nat) :=
  segDesc 0xC06000 0xC00000 480 32 ++ mmuJ_110

/-- RAM journal after chunk 112 of the identity-map loop. -/
def mmuJ_112 : List (Nat × Nat) :=
  segDesc 0xE07000 0xE00000 8 24 ++ mmuJ_111

/-- RAM journal after chunk 113 of the identity-map loop. -/
def mmuJ_113 : List (Nat × Nat) :=
  segDesc 0xE07000 0xE00000 32 32 ++ mmuJ_112

/-- RAM journal after chunk 114 of the identity-map loop. -/
def mmuJ_114 : List (Nat × Nat) :=
  segDesc 0xE07000 0xE00000 64 32 ++ mmuJ_113

/-- RAM journal after chunk 115 of the identity-map loop. -/
def mmuJ_115 : List (Nat × Nat) :=
  segDesc 0xE07000 0xE00000 96 32 ++ mmuJ_114

/-- RAM journal after chunk 116 of the identity-map loop. -/
def mmuJ_116 : List (Nat × Nat) :=
  segDesc 0xE07000 0xE00000 128 32 ++ mmuJ_115

/-- RAM journal after chunk 117 of the identity-map loop. -/
def mmuJ_117 : List (Nat × Nat) :=
  segDesc 0xE07000 0xE00000 160 32 ++ mmuJ_116

/-- RAM journal after chunk 118 of the identity-map loop. -/
def mmuJ_118 : List (Nat × Nat) :=
  segDesc 0xE07000 0xE00000 192 32 ++ mmuJ_117

/-- RAM journal after chunk 119 of the identity-map loop. -/
def mmuJ_119 : List (Nat × Nat) :=
  segDesc 0xE07000 0xE00000 224 32 ++ mmuJ_118

/-- RAM journal after chunk 120 of the identity-map loop. -/
def mmuJ_120 : List (Nat × Nat) :=
  segDesc 0xE07000 0xE00000 256 32 ++ mmuJ_119

/-- RAM journal after chunk 121 of the identity-map loop. -/
def mmuJ_121 : List (Nat × Nat) :=
  segDesc 0xE07000 0xE00000 288 32 ++ mmuJ_120

/-- RAM journal after chunk 122 of the identity-map loop. -/
def mmuJ_122 : List (Nat × Nat) :=
  segDesc 0xE07000 0xE00000 320 32 ++ mmuJ_121

/-- RAM journal after chunk 123 of the identity-map loop. -/
def mmuJ_123 : List (Nat × Nat) :=
  segDesc 0xE07000 0xE00000 352 32 ++ mmuJ_122

/-- RAM journal after chunk 124 of the identity-map loop. -/
def mmuJ_124 : List (Nat × Nat) :=
  segDesc 0xE07000 0xE00000 384 32 ++ mmuJ_123

/-- RAM journal after chunk 125 of the identity-map loop. -/
def mmuJ_125 : List (Nat × Nat) :=
  segDesc 0xE07000 0xE00000 416 32 ++ mmuJ_124

/-- RAM journal after chunk 126 of the identity-map loop. -/
def mmuJ_126 : List (Nat × Nat) :=
  segDesc 0xE07000 0xE00000 448 32 ++ mmuJ_125

/-- RAM journal after chunk 127 of the identity-map loop. -/
def mmuJ_127 : List (Nat × Nat) :=
  segDesc 0xE07000 0xE00000 480 32 ++ mmuJ_126

/-- The complete memory state after `setup_initial_paging`. -/
def mmuFinalMem : Mem :=
  ⟨mmuL1Final, mockBlock_7, mmuJ_127⟩

-- ---------------------------------------------------------------------------
-- Theorems: IPC queue (claims C1, C2, C10)
-- ---------------------------------------------------------------------------

theorem IpcQueue.send_full (q : IpcQueue) (m : IpcMessage) (hf : q.is_full = true) :
    q.send m = (Except.error m, q) := by
  simp [IpcQueue.send, hf]

theorem IpcQueue.send_not_full (q : IpcQueue) (m : IpcMessage) (hf : q.is_full = false) :
    q.send m =
      (Except.ok (),
        { q with
          messages := fun i => if i = q.tail then m else q.messages i
          tail := (q.tail + 1) % QUEUE_DEPTH }) := by
  simp [IpcQueue.send, hf]

theorem IpcQueue.receive_empty (q : IpcQueue) (he : q.is_empty = true) :
    q.receive = (none, q) := by
  simp [IpcQueue.receive, he]

theorem IpcQueue.receive_not_empty (q : IpcQueue) (he : q.is_empty = false) :
    q.receive = (some (q.messages q.head), { q with head := (q.head + 1) % QUEUE_DEPTH }) := by
  simp [IpcQueue.receive, he]

theorem IpcQueue.is_full_iff (q : IpcQueue)
    (h1 : q.head < QUEUE_DEPTH) (h2 : q.tail < QUEUE_DEPTH) :
    q.is_full = true ↔ q.pendingCount = 7 := by
  unfold IpcQueue.is_full IpcQueue.pendingCount QUEUE_DEPTH at *
  simp only [beq_iff_eq]
  omega

theorem IpcQueue.pendingList_length (q : IpcQueue) :
    q.pendingList.length = q.pendingCount := by
  simp [IpcQueue.pendingList]

theorem IpcQueue.pendingList_send (q : IpcQueue) (m : IpcMessage)
    (h1 : q.head < QUEUE_DEPTH) (h2 : q.tail < QUEUE_DEPTH) (hf : q.is_full = false) :
    ((q.send m).2).pendingList = q.pendingList ++ [m] := by
  have hne : (q.tail + 1) % QUEUE_DEPTH ≠ q.head := by
    simpa [IpcQueue.is_full, beq_eq_false_iff_ne] using hf
  rw [IpcQueue.send_not_full q m hf]
  unfold IpcQueue.pendingList IpcQueue.pendingCount QUEUE_DEPTH at *
  simp only
  have hcount : ((q.tail + 1) % 8 + 8 - q.head) % 8 = (q.tail + 8 - q.head) % 8 + 1 := by
    omega
  rw [hcount, List.range_succ, List.map_append, List.map_singleton]
  congr 1
  · apply List.map_congr_left
    intro i hi
    have hi8 : i < (q.tail + 8 - q.head) % 8 := List.mem_range.mp hi
    have : (q.head + i) % 8 ≠ q.tail := by omega
    simp [this]
  · have : (q.head + (q.tail + 8 - q.head) % 8) % 8 = q.tail := by omega
    simp [this]

theorem IpcQueue.pendingList_receive (q : IpcQueue)
    (h1 : q.head < QUEUE_DEPTH) (h2 : q.tail < QUEUE_DEPTH) (he : q.is_empty = false) :
    q.pendingList = q.messages q.head :: ((q.receive).2).pendingList := by
  have hne : q.head ≠ q.tail := by
    simpa [IpcQueue.is_empty, beq_eq_false_iff_ne] using he
  rw [IpcQueue.receive_not_empty q he]
  unfold IpcQueue.pendingList IpcQueue.pendingCount QUEUE_DEPTH at *
  simp only
  have hcount : (q.tail + 8 - q.head) % 8 = (q.tail + 8 - (q.head + 1) % 8) % 8 + 1 := by
    omega
  rw [hcount, List.range_succ_eq_map, List.map_cons, List.map_map]
  have hh : (q.head + 0) % 8 = q.head := by omega
  rw [hh]
  congr 1
  apply List.map_congr_left
  intro i hi
  have hi8 : i < (q.tail + 8 - (q.head + 1) % 8) % 8 := List.mem_range.mp hi
  have hkey : (q.head + Nat.succ i) % 8 = ((q.head + 1) % 8 + i) % 8 := by omega
  simp [Function.comp, hkey]

theorem IpcQueue.runFrom_spec (ops : List IpcOp) :
    ∀ q : IpcQueue, q.head < QUEUE_DEPTH → q.tail < QUEUE_DEPTH →
      ((IpcQueue.runFrom q ops).1.head < QUEUE_DEPTH ∧
        (IpcQueue.runFrom q ops).1.tail < QUEUE_DEPTH) ∧
      received (IpcQueue.runFrom q ops).2 ++ (IpcQueue.runFrom q ops).1.pendingList
        = q.pendingList ++ sentOk (IpcQueue.runFrom q ops).2 := by
  induction ops with
  | nil =>
    intro q h1 h2
    exact ⟨⟨h1, h2⟩, by simp [IpcQueue.runFrom, received, sentOk]⟩
  | cons op ops ih =>
    intro q h1 h2
    cases op with
    | send m =>
      by_cases hf : q.is_full = true
      · have hstep : q.stepOp (IpcOp.send m) = (IpcEvent.sendErr m, q) := by
          simp [IpcQueue.stepOp, IpcQueue.send_full q m hf]
        have h := ih q h1 h2
        simp only [IpcQueue.runFrom, hstep, received, sentOk]
        exact h
      · have hf2 : q.is_full = false := by simpa using hf
        have hstep : q.stepOp (IpcOp.send m) = (IpcEvent.sendOk m, (q.send m).2) := by
          simp [IpcQueue.stepOp, IpcQueue.send_not_full q m hf2]
        have hq2h : (q.send m).2.head = q.head := by
          rw [IpcQueue.send_not_full q m hf2]
        have hq2t : (q.send m).2.tail = (q.tail + 1) % QUEUE_DEPTH := by
          rw [IpcQueue.send_not_full q m hf2]
        have h2b : (q.send m).2.tail < QUEUE_DEPTH := by
          rw [hq2t]; exact Nat.mod_lt _ (by norm_num [QUEUE_DEPTH])
        have h1b : (q.send m).2.head < QUEUE_DEPTH := by rw [hq2h]; exact h1
        have h := ih (q.send m).2 h1b h2b
        simp only [IpcQueue.runFrom, hstep, received, sentOk]
        refine ⟨h.1, ?_⟩
        rw [h.2, IpcQueue.pendingList_send q m h1 h2 hf2, List.append_assoc,
          List.singleton_append]
    | receive =>
      by_cases he : q.is_empty = true
      · have hstep : q.stepOp IpcOp.receive = (IpcEvent.recvNone, q) := by
          simp [IpcQueue.stepOp, IpcQueue.receive_empty q he]
        have h := ih q h1 h2
        simp only [IpcQueue.runFrom, hstep, received, sentOk]
        exact h
      · have he2 : q.is_empty = false := by simpa using he
        have hstep : q.stepOp IpcOp.receive
            = (IpcEvent.recvSome (q.messages q.head), (q.receive).2) := by
          simp [IpcQueue.stepOp, IpcQueue.receive_not_empty q he2]
        have hq2h : (q.receive).2.head = (q.head + 1) % QUEUE_DEPTH := by
          rw [IpcQueue.receive_not_empty q he2]
        have hq2t : (q.receive).2.tail = q.tail := by
          rw [IpcQueue.receive_not_empty q he2]
        have h1b : (q.receive).2.head < QUEUE_DEPTH := by
          rw [hq2h]; exact Nat.mod_lt _ (by norm_num [QUEUE_DEPTH])
        have h2b : (q.receive).2.tail < QUEUE_DEPTH := by rw [hq2t]; exact h2
        have h := ih (q.receive).2 h1b h2b
        simp only [IpcQueue.runFrom, hstep, received, sentOk]
        refine ⟨h.1, ?_⟩
        rw [List.cons_append, h.2, IpcQueue.pendingList_receive q h1 h2 he2]
        simp

theorem IpcQueue.new_pendingList : IpcQueue.new.pendingList = [] := by
  simp [IpcQueue.pendingList, IpcQueue.pendingCount, IpcQueue.new, QUEUE_DEPTH]

/-- C1.  For every sequence of interleaved sequential send/receive
operations from `IpcQueue::new()`, the messages returned by successful
`receive` calls, followed by the messages still pending in the ring, are
exactly the messages of the `send` calls that returned `Ok`, in order.  In
particular the receive sequence is a prefix of the Ok-send sequence: FIFO
order, modulo drops on full. -/
theorem C1_ipc_fifo (ops : List IpcOp) :
    received (IpcQueue.run ops).2 ++ (IpcQueue.run ops).1.pendingList
      = sentOk (IpcQueue.run ops).2 := by
  have h := (IpcQueue.runFrom_spec ops IpcQueue.new (by decide)
    (by decide)).2
  rw [IpcQueue.new_pendingList] at h
  simpa [IpcQueue.run] using h

/-- C2.  After any sequence of operations from `IpcQueue::new()`, `send`
rejects (returning `Err` with the rejected message) exactly when the
number of Ok-sends minus the number of successful receives is 7
(`QUEUE_DEPTH - 1`). -/
theorem C2_ipc_capacity (ops : List IpcOp) (m : IpcMessage) :
    ((IpcQueue.run ops).1.send m).1 = Except.error m ↔
      (sentOk (IpcQueue.run ops).2).length = (received (IpcQueue.run ops).2).length + 7 := by
  obtain ⟨⟨hh, ht⟩, habs⟩ := IpcQueue.runFrom_spec ops IpcQueue.new
    (by decide) (by decide)
  rw [IpcQueue.new_pendingList] at habs
  have hlen := congrArg List.length habs
  simp only [List.length_append, List.nil_append] at hlen
  rw [IpcQueue.pendingList_length] at hlen
  have herr : ((IpcQueue.run ops).1.send m).1 = Except.error m ↔
      (IpcQueue.run ops).1.is_full = true := by
    by_cases hf : (IpcQueue.run ops).1.is_full = true
    · simp [IpcQueue.send_full _ m hf, hf]
    · have hf2 : (IpcQueue.run ops).1.is_full = false := by simpa using hf
      simp [IpcQueue.send_not_full _ m hf2, hf2]
  rw [herr]
  simp only [IpcQueue.run] at hh ht hlen ⊢
  rw [IpcQueue.is_full_iff _ hh ht]
  omega

/-- C10.  Index-bounds invariant: from `IpcQueue::new()`, after any
sequence of operations both indices stay strictly below `QUEUE_DEPTH`
(so the slot-array accesses of `send` and `receive` are in bounds), a
successful `send` advances only `tail` by one modulo `QUEUE_DEPTH`, a
successful `receive` advances only `head` by one modulo `QUEUE_DEPTH`,
and failing operations leave the state unchanged. -/
theorem C10_ipc_index_invariant :
    (∀ ops : List IpcOp,
        (IpcQueue.run ops).1.head < QUEUE_DEPTH ∧ (IpcQueue.run ops).1.tail < QUEUE_DEPTH) ∧
    (∀ (q : IpcQueue) (m : IpcMessage),
        ((q.send m).1 = Except.ok () →
          (q.send m).2.tail = (q.tail + 1) % QUEUE_DEPTH ∧ (q.send m).2.head = q.head) ∧
        ((q.send m).1 = Except.error m → (q.send m).2 = q)) ∧
    (∀ q : IpcQueue,
        ((q.receive).1.isSome = true →
          (q.receive).2.head = (q.head + 1) % QUEUE_DEPTH ∧ (q.receive).2.tail = q.tail) ∧
        ((q.receive).1 = none → (q.receive).2 = q)) := by
  refine ⟨fun ops => ?_, fun q m => ⟨fun hok => ?_, fun herr => ?_⟩,
    fun q => ⟨fun hsome => ?_, fun hnone => ?_⟩⟩
  · exact (IpcQueue.runFrom_spec ops IpcQueue.new (by decide)
      (by decide)).1
  · by_cases hf : q.is_full = true
    · rw [IpcQueue.send_full q m hf] at hok; cases hok
    · have hf2 : q.is_full = false := by simpa using hf
      rw [IpcQueue.send_not_full q m hf2]
      exact ⟨rfl, rfl⟩
  · by_cases hf : q.is_full = true
    · rw [IpcQueue.send_full q m hf]
    · have hf2 : q.is_full = false := by simpa using hf
      rw [IpcQueue.send_not_full q m hf2] at herr; cases herr
  · by_cases he : q.is_empty = true
    · rw [IpcQueue.receive_empty q he] at hsome; cases hsome
    · have he2 : q.is_empty = false := by simpa using he
      rw [IpcQueue.receive_not_empty q he2]
      exact ⟨rfl, rfl⟩
  · by_cases he : q.is_empty = true
    · rw [IpcQueue.receive_empty q he]
    · have he2 : q.is_empty = false := by simpa using he
      rw [IpcQueue.receive_not_empty q he2] at hnone; cases hnone

/-- Witness for C10 at concrete inputs: the empty run keeps the indices in
bounds, and a send on the fresh queue advances `tail` to `1`. -/
theorem C10_witness :
    (IpcQueue.run []).1.head < QUEUE_DEPTH ∧
    ((IpcQueue.new.send IpcMessage.default).2.tail
        = (IpcQueue.new.tail + 1) % QUEUE_DEPTH ∧
      (IpcQueue.new.send IpcMessage.default).2.head = IpcQueue.new.head) :=
  ⟨(C10_ipc_index_invariant.1 []).1,
    (C10_ipc_index_invariant.2.1 IpcQueue.new IpcMessage.default).1 rfl⟩

-- ---------------------------------------------------------------------------
-- Theorems: task-stack allocator (claims C4, C5)
-- ---------------------------------------------------------------------------

theorem get_stack_base_address_lt (task_id : Nat) (h : task_id < SystemConstants.MAX_TASKS) :
    TaskStackAllocator.get_stack_base_address task_id
      = some (MemoryRegions.TASK_STACKS_VADDR_START
          + task_id * MemoryRegions.TASK_STACK_SIZE) := by
  unfold TaskStackAllocator.get_stack_base_address checked_add
  rw [if_neg (by omega)]
  rw [if_pos]
  unfold MemoryRegions.TASK_STACKS_VADDR_START MemoryRegions.TASK_STACK_SIZE
    SystemConstants.MAX_TASKS at *
  have h64 : (2 : Nat) ^ 64 = 18446744073709551616 := by norm_num
  omega

/-- C4.  The allocator returns exactly the specified errors: ids at or
above `MAX_TASKS` give `InvalidArgument` for both operations; an already
allocated id below `MAX_TASKS` gives `ResourceBusy` on allocation; an
unallocated id below `MAX_TASKS` gives `NotFound` on deallocation, while a
first allocation of it succeeds. -/
theorem C4_allocator_errors (st : TaskStackAllocator) (task_id : Nat) :
    (SystemConstants.MAX_TASKS ≤ task_id →
      (st.allocate_stack task_id).1 = Except.error KernelError.InvalidArgument ∧
      (st.deallocate_stack task_id).1 = Except.error KernelError.InvalidArgument) ∧
    (task_id < SystemConstants.MAX_TASKS → st.is_allocated task_id = true →
      (st.allocate_stack task_id).1 = Except.error KernelError.ResourceBusy) ∧
    (task_id < SystemConstants.MAX_TASKS → st.is_allocated task_id = false →
      (st.deallocate_stack task_id).1 = Except.error KernelError.NotFound ∧
      ∃ top, (st.allocate_stack task_id).1 = Except.ok top) := by
  refine ⟨fun h => ?_, fun h ha => ?_, fun h ha => ?_⟩
  · constructor <;>
      simp [TaskStackAllocator.allocate_stack, TaskStackAllocator.deallocate_stack, h]
  · simp [TaskStackAllocator.allocate_stack, Nat.not_le.mpr h, ha]
  · refine ⟨?_, ?_⟩
    · simp [TaskStackAllocator.deallocate_stack, Nat.not_le.mpr h, ha]
    · refine ⟨MemoryRegions.TASK_STACKS_VADDR_START
        + task_id * MemoryRegions.TASK_STACK_SIZE + MemoryRegions.TASK_STACK_SIZE, ?_⟩
      simp [TaskStackAllocator.allocate_stack, Nat.not_le.mpr h, ha,
        get_stack_base_address_lt task_id h]

/-- Witness for C4: concrete calls from an all-free and an all-busy
allocator state, matching scenario S4 of the spec. -/
theorem C4_witness :
    ((TaskStackAllocator.allocate_stack ⟨fun _ => false⟩ 32).1
        = Except.error KernelError.InvalidArgument ∧
      (TaskStackAllocator.deallocate_stack ⟨fun _ => false⟩ 32).1
        = Except.error KernelError.InvalidArgument) ∧
    (TaskStackAllocator.allocate_stack ⟨fun _ => true⟩ 0).1
      = Except.error KernelError.ResourceBusy ∧
    (TaskStackAllocator.deallocate_stack ⟨fun _ => false⟩ 31).1
      = Except.error KernelError.NotFound :=
  ⟨(C4_allocator_errors ⟨fun _ => false⟩ 32).1 (by decide),
    (C4_allocator_errors ⟨fun _ => true⟩ 0).2.1 (by decide) rfl,
    ((C4_allocator_errors ⟨fun _ => false⟩ 31).2.2 (by decide) rfl).1⟩

/-- C5.  Stack placement is deterministic and isolated: a successful
`allocate_stack(task_id)` returns
`TASK_STACKS_VADDR_START + task_id * TASK_STACK_SIZE + TASK_STACK_SIZE`
(so the top for id 0 exceeds the base by 8192), and tops returned for
distinct ids differ by at least `TASK_STACK_SIZE`. -/
theorem C5_stack_placement :
    (∀ (st : TaskStackAllocator) (task_id top : Nat),
      task_id < SystemConstants.MAX_TASKS →
      (st.allocate_stack task_id).1 = Except.ok top →
      top = MemoryRegions.TASK_STACKS_VADDR_START
        + task_id * MemoryRegions.TASK_STACK_SIZE + MemoryRegions.TASK_STACK_SIZE) ∧
    (∀ (st st2 : TaskStackAllocator) (i j ti tj : Nat), i ≠ j →
      (st.allocate_stack i).1 = Except.ok ti →
      (st2.allocate_stack j).1 = Except.ok tj →
      MemoryRegions.TASK_STACK_SIZE ≤ max ti tj - min ti tj) := by
  have key : ∀ (st : TaskStackAllocator) (task_id top : Nat),
      (st.allocate_stack task_id).1 = Except.ok top →
      task_id < SystemConstants.MAX_TASKS ∧
        top = MemoryRegions.TASK_STACKS_VADDR_START
          + task_id * MemoryRegions.TASK_STACK_SIZE + MemoryRegions.TASK_STACK_SIZE := by
    intro st task_id top hok
    by_cases h : task_id ≥ SystemConstants.MAX_TASKS
    · simp [TaskStackAllocator.allocate_stack, h] at hok
    · have hlt : task_id < SystemConstants.MAX_TASKS := by omega
      by_cases ha : st.is_allocated task_id
      · simp [TaskStackAllocator.allocate_stack, h, ha] at hok
      · simp [TaskStackAllocator.allocate_stack, h, ha,
          get_stack_base_address_lt task_id hlt] at hok
        exact ⟨hlt, hok.symm⟩
  refine ⟨fun st task_id top _ hok => (key st task_id top hok).2,
    fun st st2 i j ti tj hne hi hj => ?_⟩
  obtain ⟨hi32, hti⟩ := key st i ti hi
  obtain ⟨hj32, htj⟩ := key st2 j tj hj
  subst hti htj
  unfold MemoryRegions.TASK_STACKS_VADDR_START MemoryRegions.TASK_STACK_SIZE at *
  rcases Nat.lt_or_ge i j with hij | hij
  · have : i + 1 ≤ j := hij
    rw [Nat.max_comm]
    omega
  · have : j < i := by omega
    omega

/-- Witness for C5: allocating id 0 from the all-free state returns
`0xC1002000`, which exceeds `TASK_STACKS_VADDR_START` by exactly 8192;
allocating id 1 returns a top at distance `TASK_STACK_SIZE`. -/
theorem C5_witness :
    (0xC1002000 : Nat) = MemoryRegions.TASK_STACKS_VADDR_START
        + 0 * MemoryRegions.TASK_STACK_SIZE + MemoryRegions.TASK_STACK_SIZE ∧
    MemoryRegions.TASK_STACK_SIZE ≤ max 0xC1002000 0xC1004000 - min 0xC1002000 0xC1004000 :=
  ⟨C5_stack_placement.1 ⟨fun _ => false⟩ 0 0xC1002000 (by decide) rfl,
    C5_stack_placement.2 ⟨fun _ => false⟩ ⟨fun _ => false⟩ 0 1 0xC1002000 0xC1004000
      (by decide) rfl rfl⟩

-- ---------------------------------------------------------------------------
-- Theorems: console CRLF translation (claim C6)
-- ---------------------------------------------------------------------------

theorem write_str_out (s out : List Nat) :
    SerialPort.write_str s out = out ++ crlf_expand s := by
  induction s generalizing out with
  | nil => simp [SerialPort.write_str, crlf_expand]
  | cons b rest ih =>
    by_cases hb : b = 0x0A <;>
      simp [SerialPort.write_str, crlf_expand, hb, SerialPort.write_byte, ih,
        List.append_assoc]

/-- C6.  The bytes handed to the serial transmit path by `write_str` are
the input bytes with every LF (0x0A) replaced by CR LF (0x0D 0x0A) and all
other bytes passed through unchanged, in order. -/
theorem C6_console_crlf (s : List Nat) :
    SerialPort.write_str s [] = crlf_expand s := by
  simpa using write_str_out s []

-- ---------------------------------------------------------------------------
-- Theorems: syscall trap return (claim C7)
-- ---------------------------------------------------------------------------

/-- C7.  For every context whose `SCAUSE` is a synchronous environment
call (8 from U-mode or 9 from S-mode; SCAUSE bit 63 clear), the trap
handler returns and the saved `SEPC` is advanced by exactly 4 (in
wrapping 64-bit arithmetic), with all other context fields unchanged. -/
theorem C7_syscall_sepc (ctx : ExceptionContext) (hlow : ctx.SCAUSE < 2 ^ 63)
    (hc : ctx.SCAUSE = 8 ∨ ctx.SCAUSE = 9) :
    generic_trap_handler ctx
      = TrapResult.resume { ctx with SEPC := (ctx.SEPC + 4) % 2 ^ 64 } := by
  have hge : ¬ ctx.SCAUSE ≥ 2 ^ 63 := by omega
  rcases hc with h | h <;>
    simp [generic_trap_handler, ExceptionCause.from_scause, hge, h]

/-- Witness for C7: an `ecall`-from-U-mode trap at `SEPC = 0x1000`
resumes at `0x1004`. -/
theorem C7_witness :
    generic_trap_handler ⟨fun _ => 0, 8, 0x1000, 0, 0⟩
      = TrapResult.resume ⟨fun _ => 0, 8, 0x1004, 0, 0⟩ :=
  C7_syscall_sepc ⟨fun _ => 0, 8, 0x1000, 0, 0⟩ (by norm_num) (Or.inl rfl)

-- ---------------------------------------------------------------------------
-- Theorems: SBI reboot (claim C8)
-- ---------------------------------------------------------------------------

/-- C8.  `system_reboot()` on rv64 issues an `ecall` with
`a7 = 0x53525354` (SBI SRST extension), `a6 = 0` (system reset function),
`a0 = 1` (cold reboot) and `a1 = 0` (no reason), and this `ecall` occurs
strictly before any fallback halt in the trace. -/
theorem C8_reboot_sbi :
    ∃ i c, shutdown.system_reboot.get? i = some (ShutdownEvent.ecall c)
      ∧ c.a7 = 0x53525354 ∧ c.a6 = 0 ∧ c.a0 = 1 ∧ c.a1 = 0
      ∧ ∀ j, shutdown.system_reboot.get? j = some ShutdownEvent.halt → i < j := by
  refine ⟨1, sbi_call EID_SRST SRST_FUNCTION_SYSTEM_RESET SRST_TYPE_COLD_REBOOT
    SRST_REASON_NONE 0 0 0 0, rfl, rfl, rfl, rfl, rfl, ?_⟩
  intro j hj
  match j with
  | 0 => simp [shutdown.system_reboot] at hj
  | 1 => simp [shutdown.system_reboot] at hj
  | 2 => norm_num
  | n + 3 => simp [shutdown.system_reboot] at hj

-- ---------------------------------------------------------------------------
-- Theorems: the KernelError sum (claim C9)
-- ---------------------------------------------------------------------------

/-- C9 (code evaluated at the claim).  The `KernelError` type defined in
src/platformgeneric.rs is closed over exactly seven variant shapes:
`Success`, `ResourceBusy`, `InvalidArgument`, `NotFound`,
`OutOfMemoryStatic`, `PlatformSpecificError(u32)` and `GenericFailure`.
It has no `DtbNotFound` and no `ConfigurationNotParsed` variant, so the
claimed returns of the DTB path (`parse_dtb(0) = Err(DtbNotFound)` and the
`ConfigurationNotParsed` error of `get_config`) name variants that do not
exist in the source enum. -/
theorem C9_kernel_error_closed (e : KernelError) :
    e = KernelError.Success ∨ e = KernelError.ResourceBusy ∨
    e = KernelError.InvalidArgument ∨ e = KernelError.NotFound ∨
    e = KernelError.OutOfMemoryStatic ∨
    (∃ c, e = KernelError.PlatformSpecificError c) ∨ e = KernelError.GenericFailure := by
  cases e <;> simp

-- ---------------------------------------------------------------------------
-- Theorems: Sv39 identity mapping (claim C3)
-- ---------------------------------------------------------------------------

set_option maxRecDepth 8000

/-- Justification of the journal-reset modelling of `zero_table` on the
two static table pages: afterwards every address of that page reads zero
and every other address is unchanged, which is exactly the observable
effect of the source's loop of 512 zero stores. -/
theorem zero_table_read (m : Mem) (base : Nat)
    (hb : base = L1_TABLE_ADDR ∨ base = PAGE_TABLE_MOCK_ADDR) (a : Nat) :
    mem_read (zero_table m base) a
      = if inPage base a then 0 else mem_read m a := by
  have hdisj : ∀ x : Nat, inPage L1_TABLE_ADDR x = true → inPage PAGE_TABLE_MOCK_ADDR x = true → False := by
    intro x h1 h2
    simp only [inPage, Bool.and_eq_true, Nat.ble_eq, Nat.blt_eq, decide_eq_true_eq,
      L1_TABLE_ADDR, PAGE_TABLE_MOCK_ADDR, PAGE_SIZE] at h1 h2
    omega
  rcases hb with hb | hb <;> subst hb
  · unfold zero_table
    rw [if_pos rfl]
    unfold mem_read
    by_cases h : inPage L1_TABLE_ADDR a = true
    · simp [h, lookupJ]
    · simp [h]
  · unfold zero_table
    rw [if_neg (by decide), if_pos rfl]
    unfold mem_read
    by_cases h1 : inPage L1_TABLE_ADDR a = true
    · have h2 : inPage PAGE_TABLE_MOCK_ADDR a = false := by
        rcases hm : inPage PAGE_TABLE_MOCK_ADDR a with _ | _
        · rfl
        · exact absurd (hdisj a h1 hm) (by simp)
      simp [h1, h2]
    · by_cases h2 : inPage PAGE_TABLE_MOCK_ADDR a = true
      · simp [h1, h2, lookupJ]
      · simp [h1, h2]

theorem lookupJ_append (xs ys : List (Nat × Nat)) (k : Nat) :
    lookupJ (xs ++ ys) k = (lookupJ xs k).orElse (fun _ => lookupJ ys k) := by
  induction xs with
  | nil => simp [lookupJ, Option.orElse]
  | cons p rest ih =>
    by_cases h : p.1 = k <;> simp [lookupJ, h, ih, Option.orElse]

/-- Splitting the identity-map loop: mapping `m + n` pages from `s` is
mapping the first `m`, then the next `n`. -/
theorem runPages_split (s m n : Nat) (mem : Mem) :
    runPages s (m + n) mem = runPages (s + PAGE_SIZE * m) n (runPages s m mem) := by
  unfold runPages
  rw [Nat.add_comm m n, ← List.range'_append, List.foldl_append]

theorem mmuChunk_0 :
    runPages 0x0 32 ⟨[], [], []⟩ = ⟨mmuL1Final, mockBlock_0, mmuJ_0⟩ := by
  rfl

theorem mmuChunk_1 :
    runPages 0x20000 32 ⟨mmuL1Final, mockBlock_0, mmuJ_0⟩ = ⟨mmuL1Final, mockBlock_0, mmuJ_1⟩ := by
  rfl

theorem mmuChunk_2 :
    runPages 0x40000 32 ⟨mmuL1Final, mockBlock_0, mmuJ_1⟩ = ⟨mmuL1Final, mockBlock_0, mmuJ_2⟩ := by
  rfl

theorem mmuChunk_3 :
    runPages 0x60000 32 ⟨mmuL1Final, mockBlock_0, mmuJ_2⟩ = ⟨mmuL1Final, mockBlock_0, mmuJ_3⟩ := by
  rfl

theorem mmuChunk_4 :
    runPages 0x80000 32 ⟨mmuL1Final, mockBlock_0, mmuJ_3⟩ = ⟨mmuL1Final, mockBlock_0, mmuJ_4⟩ := by
  rfl

theorem mmuChunk_5 :
    runPages 0xA0000 32 ⟨mmuL1Final, mockBlock_0, mmuJ_4⟩ = ⟨mmuL1Final, mockBlock_0, mmuJ_5⟩ := by
  rfl

theorem mmuChunk_6 :
    runPages 0xC0000 32 ⟨mmuL1Final, mockBlock_0, mmuJ_5⟩ = ⟨mmuL1Final, mockBlock_0, mmuJ_6⟩ := by
  rfl

theorem mmuChunk_7 :
    runPages 0xE0000 32 ⟨mmuL1Final, mockBlock_0, mmuJ_6⟩ = ⟨mmuL1Final, mockBlock_0, mmuJ_7⟩ := by
  rfl

theorem mmuChunk_8 :
    runPages 0x100000 32 ⟨mmuL1Final, mockBlock_0, mmuJ_7⟩ = ⟨mmuL1Final, mockBlock_0, mmuJ_8⟩ := by
  rfl

theorem mmuChunk_9 :
    runPages 0x120000 32 ⟨mmuL1Final, mockBlock_0, mmuJ_8⟩ = ⟨mmuL1Final, mockBlock_0, mmuJ_9⟩ := by
  rfl

theorem mmuChunk_10 :
    runPages 0x140000 32 ⟨mmuL1Final, mockBlock_0, mmuJ_9⟩ = ⟨mmuL1Final, mockBlock_0, mmuJ_10⟩ := by
  rfl

theorem mmuChunk_11 :
    runPages 0x160000 32 ⟨mmuL1Final, mockBlock_0, mmuJ_10⟩ = ⟨mmuL1Final, mockBlock_0, mmuJ_11⟩ := by
  rfl

theorem mmuChunk_12 :
    runPages 0x180000 32 ⟨mmuL1Final, mockBlock_0, mmuJ_11⟩ = ⟨mmuL1Final, mockBlock_0, mmuJ_12⟩ := by
  rfl

theorem mmuChunk_13 :
    runPages 0x1A0000 32 ⟨mmuL1Final, mockBlock_0, mmuJ_12⟩ = ⟨mmuL1Final, mockBlock_0, mmuJ_13⟩ := by
  rfl

theorem mmuChunk_14 :
    runPages 0x1C0000 32 ⟨mmuL1Final, mockBlock_0, mmuJ_13⟩ = ⟨mmuL1Final, mockBlock_0, mmuJ_14⟩ := by
  rfl

theorem mmuChunk_15 :
    runPages 0x1E0000 32 ⟨mmuL1Final, mockBlock_0, mmuJ_14⟩ = ⟨mmuL1Final, mockBlock_0, mmuJ_15⟩ := by
  rfl

theorem mmuChunk_16 :
    runPages 0x200000 32 ⟨mmuL1Final, mockBlock_0, mmuJ_15⟩ = ⟨mmuL1Final, mockBlock_1, mmuJ_16⟩ := by
  rfl

theorem mmuChunk_17 :
    runPages 0x220000 32 ⟨mmuL1Final, mockBlock_1, mmuJ_16⟩ = ⟨mmuL1Final, mockBlock_1, mmuJ_17⟩ := by
  rfl

theorem mmuChunk_18 :
    runPages 0x240000 32 ⟨mmuL1Final, mockBlock_1, mmuJ_17⟩ = ⟨mmuL1Final, mockBlock_1, mmuJ_18⟩ := by
  rfl

theorem mmuChunk_19 :
    runPages 0x260000 32 ⟨mmuL1Final, mockBlock_1, mmuJ_18⟩ = ⟨mmuL1Final, mockBlock_1, mmuJ_19⟩ := by
  rfl

theorem mmuChunk_20 :
    runPages 0x280000 32 ⟨mmuL1Final, mockBlock_1, mmuJ_19⟩ = ⟨mmuL1Final, mockBlock_1, mmuJ_20⟩ := by
  rfl

theorem mmuChunk_21 :
    runPages 0x2A0000 32 ⟨mmuL1Final, mockBlock_1, mmuJ_20⟩ = ⟨mmuL1Final, mockBlock_1, mmuJ_21⟩ := by
  rfl

theorem mmuChunk_22 :
    runPages 0x2C0000 32 ⟨mmuL1Final, mockBlock_1, mmuJ_21⟩ = ⟨mmuL1Final, mockBlock_1, mmuJ_22⟩ := by
  rfl

theorem mmuChunk_23 :
    runPages 0x2E0000 32 ⟨mmuL1Final, mockBlock_1, mmuJ_22⟩ = ⟨mmuL1Final, mockBlock_1, mmuJ_23⟩ := by
  rfl

theorem mmuChunk_24 :
    runPages 0x300000 32 ⟨mmuL1Final, mockBlock_1, mmuJ_23⟩ = ⟨mmuL1Final, mockBlock_1, mmuJ_24⟩ := by
  rfl

theorem mmuChunk_25 :
    runPages 0x320000 32 ⟨mmuL1Final, mockBlock_1, mmuJ_24⟩ = ⟨mmuL1Final, mockBlock_1, mmuJ_25⟩ := by
  rfl

theorem mmuChunk_26 :
    runPages 0x340000 32 ⟨mmuL1Final, mockBlock_1, mmuJ_25⟩ = ⟨mmuL1Final, mockBlock_1, mmuJ_26⟩ := by
  rfl

theorem mmuChunk_27 :
    runPages 0x360000 32 ⟨mmuL1Final, mockBlock_1, mmuJ_26⟩ = ⟨mmuL1Final, mockBlock_1, mmuJ_27⟩ := by
  rfl

theorem mmuChunk_28 :
    runPages 0x380000 32 ⟨mmuL1Final, mockBlock_1, mmuJ_27⟩ = ⟨mmuL1Final, mockBlock_1, mmuJ_28⟩ := by
  rfl

theorem mmuChunk_29 :
    runPages 0x3A0000 32 ⟨mmuL1Final, mockBlock_1, mmuJ_28⟩ = ⟨mmuL1Final, mockBlock_1, mmuJ_29⟩ := by
  rfl

theorem mmuChunk_30 :
    runPages 0x3C0000 32 ⟨mmuL1Final, mockBlock_1, mmuJ_29⟩ = ⟨mmuL1Final, mockBlock_1, mmuJ_30⟩ := by
  rfl

theorem mmuChunk_31 :
    runPages 0x3E0000 32 ⟨mmuL1Final, mockBlock_1, mmuJ_30⟩ = ⟨mmuL1Final, mockBlock_1, mmuJ_31⟩ := by
  rfl

theorem mmuChunk_32 :
    runPages 0x400000 32 ⟨mmuL1Final, mockBlock_1, mmuJ_31⟩ = ⟨mmuL1Final, mockBlock_2, mmuJ_32⟩ := by
  rfl

theorem mmuChunk_33 :
    runPages 0x420000 32 ⟨mmuL1Final, mockBlock_2, mmuJ_32⟩ = ⟨mmuL1Final, mockBlock_2, mmuJ_33⟩ := by
  rfl

theorem mmuChunk_34 :
    runPages 0x440000 32 ⟨mmuL1Final, mockBlock_2, mmuJ_33⟩ = ⟨mmuL1Final, mockBlock_2, mmuJ_34⟩ := by
  rfl

theorem mmuChunk_35 :
    runPages 0x460000 32 ⟨mmuL1Final, mockBlock_2, mmuJ_34⟩ = ⟨mmuL1Final, mockBlock_2, mmuJ_35⟩ := by
  rfl

theorem mmuChunk_36 :
    runPages 0x480000 32 ⟨mmuL1Final, mockBlock_2, mmuJ_35⟩ = ⟨mmuL1Final, mockBlock_2, mmuJ_36⟩ := by
  rfl

theorem mmuChunk_37 :
    runPages 0x4A0000 32 ⟨mmuL1Final, mockBlock_2, mmuJ_36⟩ = ⟨mmuL1Final, mockBlock_2, mmuJ_37⟩ := by
  rfl

theorem mmuChunk_38 :
    runPages 0x4C0000 32 ⟨mmuL1Final, mockBlock_2, mmuJ_37⟩ = ⟨mmuL1Final, mockBlock_2, mmuJ_38⟩ := by
  rfl

theorem mmuChunk_39 :
    runPages 0x4E0000 32 ⟨mmuL1Final, mockBlock_2, mmuJ_38⟩ = ⟨mmuL1Final, mockBlock_2, mmuJ_39⟩ := by
  rfl

theorem mmuChunk_40 :
    runPages 0x500000 32 ⟨mmuL1Final, mockBlock_2, mmuJ_39⟩ = ⟨mmuL1Final, mockBlock_2, mmuJ_40⟩ := by
  rfl

theorem mmuChunk_41 :
    runPages 0x520000 32 ⟨mmuL1Final, mockBlock_2, mmuJ_40⟩ = ⟨mmuL1Final, mockBlock_2, mmuJ_41⟩ := by
  rfl

theorem mmuChunk_42 :
    runPages 0x540000 32 ⟨mmuL1Final, mockBlock_2, mmuJ_41⟩ = ⟨mmuL1Final, mockBlock_2, mmuJ_42⟩ := by
  rfl

theorem mmuChunk_43 :
    runPages 0x560000 32 ⟨mmuL1Final, mockBlock_2, mmuJ_42⟩ = ⟨mmuL1Final, mockBlock_2, mmuJ_43⟩ := by
  rfl

theorem mmuChunk_44 :
    runPages 0x580000 32 ⟨mmuL1Final, mockBlock_2, mmuJ_43⟩ = ⟨mmuL1Final, mockBlock_2, mmuJ_44⟩ := by
  rfl

theorem mmuChunk_45 :
    runPages 0x5A0000 32 ⟨mmuL1Final, mockBlock_2, mmuJ_44⟩ = ⟨mmuL1Final, mockBlock_2, mmuJ_45⟩ := by
  rfl

theorem mmuChunk_46 :
    runPages 0x5C0000 32 ⟨mmuL1Final, mockBlock_2, mmuJ_45⟩ = ⟨mmuL1Final, mockBlock_2, mmuJ_46⟩ := by
  rfl

theorem mmuChunk_47 :
    runPages 0x5E0000 32 ⟨mmuL1Final, mockBlock_2, mmuJ_46⟩ = ⟨mmuL1Final, mockBlock_2, mmuJ_47⟩ := by
  rfl

theorem mmuChunk_48 :
    runPages 0x600000 32 ⟨mmuL1Final, mockBlock_2, mmuJ_47⟩ = ⟨mmuL1Final, mockBlock_3, mmuJ_48⟩ := by
  rfl

theorem mmuChunk_49 :
    runPages 0x620000 32 ⟨mmuL1Final, mockBlock_3, mmuJ_48⟩ = ⟨mmuL1Final, mockBlock_3, mmuJ_49⟩ := by
  rfl

theorem mmuChunk_50 :
    runPages 0x640000 32 ⟨mmuL1Final, mockBlock_3, mmuJ_49⟩ = ⟨mmuL1Final, mockBlock_3, mmuJ_50⟩ := by
  rfl

theorem mmuChunk_51 :
    runPages 0x660000 32 ⟨mmuL1Final, mockBlock_3, mmuJ_50⟩ = ⟨mmuL1Final, mockBlock_3, mmuJ_51⟩ := by
  rfl

theorem mmuChunk_52 :
    runPages 0x680000 32 ⟨mmuL1Final, mockBlock_3, mmuJ_51⟩ = ⟨mmuL1Final, mockBlock_3, mmuJ_52⟩ := by
  rfl

theorem mmuChunk_53 :
    runPages 0x6A0000 32 ⟨mmuL1Final, mockBlock_3, mmuJ_52⟩ = ⟨mmuL1Final, mockBlock_3, mmuJ_53⟩ := by
  rfl

theorem mmuChunk_54 :
    runPages 0x6C0000 32 ⟨mmuL1Final, mockBlock_3, mmuJ_53⟩ = ⟨mmuL1Final, mockBlock_3, mmuJ_54⟩ := by
  rfl

theorem mmuChunk_55 :
    runPages 0x6E0000 32 ⟨mmuL1Final, mockBlock_3, mmuJ_54⟩ = ⟨mmuL1Final, mockBlock_3, mmuJ_55⟩ := by
  rfl

theorem mmuChunk_56 :
    runPages 0x700000 32 ⟨mmuL1Final, mockBlock_3, mmuJ_55⟩ = ⟨mmuL1Final, mockBlock_3, mmuJ_56⟩ := by
  rfl

theorem mmuChunk_57 :
    runPages 0x720000 32 ⟨mmuL1Final, mockBlock_3, mmuJ_56⟩ = ⟨mmuL1Final, mockBlock_3, mmuJ_57⟩ := by
  rfl

theorem mmuChunk_58 :
    runPages 0x740000 32 ⟨mmuL1Final, mockBlock_3, mmuJ_57⟩ = ⟨mmuL1Final, mockBlock_3, mmuJ_58⟩ := by
  rfl

theorem mmuChunk_59 :
    runPages 0x760000 32 ⟨mmuL1Final, mockBlock_3, mmuJ_58⟩ = ⟨mmuL1Final, mockBlock_3, mmuJ_59⟩ := by
  rfl

theorem mmuChunk_60 :
    runPages 0x780000 32 ⟨mmuL1Final, mockBlock_3, mmuJ_59⟩ = ⟨mmuL1Final, mockBlock_3, mmuJ_60⟩ := by
  rfl

theorem mmuChunk_61 :
    runPages 0x7A0000 32 ⟨mmuL1Final, mockBlock_3, mmuJ_60⟩ = ⟨mmuL1Final, mockBlock_3, mmuJ_61⟩ := by
  rfl

theorem mmuChunk_62 :
    runPages 0x7C0000 32 ⟨mmuL1Final, mockBlock_3, mmuJ_61⟩ = ⟨mmuL1Final, mockBlock_3, mmuJ_62⟩ := by
  rfl

theorem mmuChunk_63 :
    runPages 0x7E0000 32 ⟨mmuL1Final, mockBlock_3, mmuJ_62⟩ = ⟨mmuL1Final, mockBlock_3, mmuJ_63⟩ := by
  rfl

theorem mmuChunk_64 :
    runPages 0x800000 32 ⟨mmuL1Final, mockBlock_3, mmuJ_63⟩ = ⟨mmuL1Final, mockBlock_4, mmuJ_64⟩ := by
  rfl

theorem mmuChunk_65 :
    runPages 0x820000 32 ⟨mmuL1Final, mockBlock_4, mmuJ_64⟩ = ⟨mmuL1Final, mockBlock_4, mmuJ_65⟩ := by
  rfl

theorem mmuChunk_66 :
    runPages 0x840000 32 ⟨mmuL1Final, mockBlock_4, mmuJ_65⟩ = ⟨mmuL1Final, mockBlock_4, mmuJ_66⟩ := by
  rfl

theorem mmuChunk_67 :
    runPages 0x860000 32 ⟨mmuL1Final, mockBlock_4, mmuJ_66⟩ = ⟨mmuL1Final, mockBlock_4, mmuJ_67⟩ := by
  rfl

theorem mmuChunk_68 :
    runPages 0x880000 32 ⟨mmuL1Final, mockBlock_4, mmuJ_67⟩ = ⟨mmuL1Final, mockBlock_4, mmuJ_68⟩ := by
  rfl

theorem mmuChunk_69 :
    runPages 0x8A0000 32 ⟨mmuL1Final, mockBlock_4, mmuJ_68⟩ = ⟨mmuL1Final, mockBlock_4, mmuJ_69⟩ := by
  rfl

theorem mmuChunk_70 :
    runPages 0x8C0000 32 ⟨mmuL1Final, mockBlock_4, mmuJ_69⟩ = ⟨mmuL1Final, mockBlock_4, mmuJ_70⟩ := by
  rfl

theorem mmuChunk_71 :
    runPages 0x8E0000 32 ⟨mmuL1Final, mockBlock_4, mmuJ_70⟩ = ⟨mmuL1Final, mockBlock_4, mmuJ_71⟩ := by
  rfl

theorem mmuChunk_72 :
    runPages 0x900000 32 ⟨mmuL1Final, mockBlock_4, mmuJ_71⟩ = ⟨mmuL1Final, mockBlock_4, mmuJ_72⟩ := by
  rfl

theorem mmuChunk_73 :
    runPages 0x920000 32 ⟨mmuL1Final, mockBlock_4, mmuJ_72⟩ = ⟨mmuL1Final, mockBlock_4, mmuJ_73⟩ := by
  rfl

theorem mmuChunk_74 :
    runPages 0x940000 32 ⟨mmuL1Final, mockBlock_4, mmuJ_73⟩ = ⟨mmuL1Final, mockBlock_4, mmuJ_74⟩ := by
  rfl

theorem mmuChunk_75 :
    runPages 0x960000 32 ⟨mmuL1Final, mockBlock_4, mmuJ_74⟩ = ⟨mmuL1Final, mockBlock_4, mmuJ_75⟩ := by
  rfl

theorem mmuChunk_76 :
    runPages 0x980000 32 ⟨mmuL1Final, mockBlock_4, mmuJ_75⟩ = ⟨mmuL1Final, mockBlock_4, mmuJ_76⟩ := by
  rfl

theorem mmuChunk_77 :
    runPages 0x9A0000 32 ⟨mmuL1Final, mockBlock_4, mmuJ_76⟩ = ⟨mmuL1Final, mockBlock_4, mmuJ_77⟩ := by
  rfl

theorem mmuChunk_78 :
    runPages 0x9C0000 32 ⟨mmuL1Final, mockBlock_4, mmuJ_77⟩ = ⟨mmuL1Final, mockBlock_4, mmuJ_78⟩ := by
  rfl

theorem mmuChunk_79 :
    runPages 0x9E0000 32 ⟨mmuL1Final, mockBlock_4, mmuJ_78⟩ = ⟨mmuL1Final, mockBlock_4, mmuJ_79⟩ := by
  rfl

theorem mmuChunk_80 :
    runPages 0xA00000 32 ⟨mmuL1Final, mockBlock_4, mmuJ_79⟩ = ⟨mmuL1Final, mockBlock_5, mmuJ_80⟩ := by
  rfl

theorem mmuChunk_81 :
    runPages 0xA20000 32 ⟨mmuL1Final, mockBlock_5, mmuJ_80⟩ = ⟨mmuL1Final, mockBlock_5, mmuJ_81⟩ := by
  rfl

theorem mmuChunk_82 :
    runPages 0xA40000 32 ⟨mmuL1Final, mockBlock_5, mmuJ_81⟩ = ⟨mmuL1Final, mockBlock_5, mmuJ_82⟩ := by
  rfl

theorem mmuChunk_83 :
    runPages 0xA60000 32 ⟨mmuL1Final, mockBlock_5, mmuJ_82⟩ = ⟨mmuL1Final, mockBlock_5, mmuJ_83⟩ := by
  rfl

theorem mmuChunk_84 :
    runPages 0xA80000 32 ⟨mmuL1Final, mockBlock_5, mmuJ_83⟩ = ⟨mmuL1Final, mockBlock_5, mmuJ_84⟩ := by
  rfl

theorem mmuChunk_85 :
    runPages 0xAA0000 32 ⟨mmuL1Final, mockBlock_5, mmuJ_84⟩ = ⟨mmuL1Final, mockBlock_5, mmuJ_85⟩ := by
  rfl

theorem mmuChunk_86 :
    runPages 0xAC0000 32 ⟨mmuL1Final, mockBlock_5, mmuJ_85⟩ = ⟨mmuL1Final, mockBlock_5, mmuJ_86⟩ := by
  rfl

theorem mmuChunk_87 :
    runPages 0xAE0000 32 ⟨mmuL1Final, mockBlock_5, mmuJ_86⟩ = ⟨mmuL1Final, mockBlock_5, mmuJ_87⟩ := by
  rfl

theorem mmuChunk_88 :
    runPages 0xB00000 32 ⟨mmuL1Final, mockBlock_5, mmuJ_87⟩ = ⟨mmuL1Final, mockBlock_5, mmuJ_88⟩ := by
  rfl

theorem mmuChunk_89 :
    runPages 0xB20000 32 ⟨mmuL1Final, mockBlock_5, mmuJ_88⟩ = ⟨mmuL1Final, mockBlock_5, mmuJ_89⟩ := by
  rfl

theorem mmuChunk_90 :
    runPages 0xB40000 32 ⟨mmuL1Final, mockBlock_5, mmuJ_89⟩ = ⟨mmuL1Final, mockBlock_5, mmuJ_90⟩ := by
  rfl

theorem mmuChunk_91 :
    runPages 0xB60000 32 ⟨mmuL1Final, mockBlock_5, mmuJ_90⟩ = ⟨mmuL1Final, mockBlock_5, mmuJ_91⟩ := by
  rfl

theorem mmuChunk_92 :
    runPages 0xB80000 32 ⟨mmuL1Final, mockBlock_5, mmuJ_91⟩ = ⟨mmuL1Final, mockBlock_5, mmuJ_92⟩ := by
  rfl

theorem mmuChunk_93 :
    runPages 0xBA0000 32 ⟨mmuL1Final, mockBlock_5, mmuJ_92⟩ = ⟨mmuL1Final, mockBlock_5, mmuJ_93⟩ := by
  rfl

theorem mmuChunk_94 :
    runPages 0xBC0000 32 ⟨mmuL1Final, mockBlock_5, mmuJ_93⟩ = ⟨mmuL1Final, mockBlock_5, mmuJ_94⟩ := by
  rfl

theorem mmuChunk_95 :
    runPages 0xBE0000 32 ⟨mmuL1Final, mockBlock_5, mmuJ_94⟩ = ⟨mmuL1Final, mockBlock_5, mmuJ_95⟩ := by
  rfl

theorem mmuChunk_96 :
    runPages 0xC00000 32 ⟨mmuL1Final, mockBlock_5, mmuJ_95⟩ = ⟨mmuL1Final, mockBlock_6, mmuJ_96⟩ := by
  rfl

theorem mmuChunk_97 :
    runPages 0xC20000 32 ⟨mmuL1Final, mockBlock_6, mmuJ_96⟩ = ⟨mmuL1Final, mockBlock_6, mmuJ_97⟩ := by
  rfl

theorem mmuChunk_98 :
    runPages 0xC40000 32 ⟨mmuL1Final, mockBlock_6, mmuJ_97⟩ = ⟨mmuL1Final, mockBlock_6, mmuJ_98⟩ := by
  rfl

theorem mmuChunk_99 :
    runPages 0xC60000 32 ⟨mmuL1Final, mockBlock_6, mmuJ_98⟩ = ⟨mmuL1Final, mockBlock_6, mmuJ_99⟩ := by
  rfl

theorem mmuChunk_100 :
    runPages 0xC80000 32 ⟨mmuL1Final, mockBlock_6, mmuJ_99⟩ = ⟨mmuL1Final, mockBlock_6, mmuJ_100⟩ := by
  rfl

theorem mmuChunk_101 :
    runPages 0xCA0000 32 ⟨mmuL1Final, mockBlock_6, mmuJ_100⟩ = ⟨mmuL1Final, mockBlock_6, mmuJ_101⟩ := by
  rfl

theorem mmuChunk_102 :
    runPages 0xCC0000 32 ⟨mmuL1Final, mockBlock_6, mmuJ_101⟩ = ⟨mmuL1Final, mockBlock_6, mmuJ_102⟩ := by
  rfl

theorem mmuChunk_103 :
    runPages 0xCE0000 32 ⟨mmuL1Final, mockBlock_6, mmuJ_102⟩ = ⟨mmuL1Final, mockBlock_6, mmuJ_103⟩ := by
  rfl

theorem mmuChunk_104 :
    runPages 0xD00000 32 ⟨mmuL1Final, mockBlock_6, mmuJ_103⟩ = ⟨mmuL1Final, mockBlock_6, mmuJ_104⟩ := by
  rfl

theorem mmuChunk_105 :
    runPages 0xD20000 32 ⟨mmuL1Final, mockBlock_6, mmuJ_104⟩ = ⟨mmuL1Final, mockBlock_6, mmuJ_105⟩ := by
  rfl

theorem mmuChunk_106 :
    runPages 0xD40000 32 ⟨mmuL1Final, mockBlock_6, mmuJ_105⟩ = ⟨mmuL1Final, mockBlock_6, mmuJ_106⟩ := by
  rfl

theorem mmuChunk_107 :
    runPages 0xD60000 32 ⟨mmuL1Final, mockBlock_6, mmuJ_106⟩ = ⟨mmuL1Final, mockBlock_6, mmuJ_107⟩ := by
  rfl

theorem mmuChunk_108 :
    runPages 0xD80000 32 ⟨mmuL1Final, mockBlock_6, mmuJ_107⟩ = ⟨mmuL1Final, mockBlock_6, mmuJ_108⟩ := by
  rfl

theorem mmuChunk_109 :
    runPages 0xDA0000 32 ⟨mmuL1Final, mockBlock_6, mmuJ_108⟩ = ⟨mmuL1Final, mockBlock_6, mmuJ_109⟩ := by
  rfl

theorem mmuChunk_110 :
    runPages 0xDC0000 32 ⟨mmuL1Final, mockBlock_6, mmuJ_109⟩ = ⟨mmuL1Final, mockBlock_6, mmuJ_110⟩ := by
  rfl

theorem mmuChunk_111 :
    runPages 0xDE0000 32 ⟨mmuL1Final, mockBlock_6, mmuJ_110⟩ = ⟨mmuL1Final, mockBlock_6, mmuJ_111⟩ := by
  rfl

theorem mmuChunk_112 :
    runPages 0xE00000 32 ⟨mmuL1Final, mockBlock_6, mmuJ_111⟩ = ⟨mmuL1Final, mockBlock_7, mmuJ_112⟩ := by
  rfl

theorem mmuChunk_113 :
    runPages 0xE20000 32 ⟨mmuL1Final, mockBlock_7, mmuJ_112⟩ = ⟨mmuL1Final, mockBlock_7, mmuJ_113⟩ := by
  rfl

theorem mmuChunk_114 :
    runPages 0xE40000 32 ⟨mmuL1Final, mockBlock_7, mmuJ_113⟩ = ⟨mmuL1Final, mockBlock_7, mmuJ_114⟩ := by
  rfl

theorem mmuChunk_115 :
    runPages 0xE60000 32 ⟨mmuL1Final, mockBlock_7, mmuJ_114⟩ = ⟨mmuL1Final, mockBlock_7, mmuJ_115⟩ := by
  rfl

theorem mmuChunk_116 :
    runPages 0xE80000 32 ⟨mmuL1Final, mockBlock_7, mmuJ_115⟩ = ⟨mmuL1Final, mockBlock_7, mmuJ_116⟩ := by
  rfl

theorem mmuChunk_117 :
    runPages 0xEA0000 32 ⟨mmuL1Final, mockBlock_7, mmuJ_116⟩ = ⟨mmuL1Final, mockBlock_7, mmuJ_117⟩ := by
  rfl

theorem mmuChunk_118 :
    runPages 0xEC0000 32 ⟨mmuL1Final, mockBlock_7, mmuJ_117⟩ = ⟨mmuL1Final, mockBlock_7, mmuJ_118⟩ := by
  rfl

theorem mmuChunk_119 :
    runPages 0xEE0000 32 ⟨mmuL1Final, mockBlock_7, mmuJ_118⟩ = ⟨mmuL1Final, mockBlock_7, mmuJ_119⟩ := by
  rfl

theorem mmuChunk_120 :
    runPages 0xF00000 32 ⟨mmuL1Final, mockBlock_7, mmuJ_119⟩ = ⟨mmuL1Final, mockBlock_7, mmuJ_120⟩ := by
  rfl

theorem mmuChunk_121 :
    runPages 0xF20000 32 ⟨mmuL1Final, mockBlock_7, mmuJ_120⟩ = ⟨mmuL1Final, mockBlock_7, mmuJ_121⟩ := by
  rfl

theorem mmuChunk_122 :
    runPages 0xF40000 32 ⟨mmuL1Final, mockBlock_7, mmuJ_121⟩ = ⟨mmuL1Final, mockBlock_7, mmuJ_122⟩ := by
  rfl

theorem mmuChunk_123 :
    runPages 0xF60000 32 ⟨mmuL1Final, mockBlock_7, mmuJ_122⟩ = ⟨mmuL1Final, mockBlock_7, mmuJ_123⟩ := by
  rfl

theorem mmuChunk_124 :
    runPages 0xF80000 32 ⟨mmuL1Final, mockBlock_7, mmuJ_123⟩ = ⟨mmuL1Final, mockBlock_7, mmuJ_124⟩ := by
  rfl

theorem mmuChunk_125 :
    runPages 0xFA0000 32 ⟨mmuL1Final, mockBlock_7, mmuJ_124⟩ = ⟨mmuL1Final, mockBlock_7, mmuJ_125⟩ := by
  rfl

theorem mmuChunk_126 :
    runPages 0xFC0000 32 ⟨mmuL1Final, mockBlock_7, mmuJ_125⟩ = ⟨mmuL1Final, mockBlock_7, mmuJ_126⟩ := by
  rfl

theorem mmuChunk_127 :
    runPages 0xFE0000 32 ⟨mmuL1Final, mockBlock_7, mmuJ_126⟩ = ⟨mmuL1Final, mockBlock_7, mmuJ_127⟩ := by
  rfl

theorem mmuRun_127 :
    runPages 0xFE0000 32 ⟨mmuL1Final, mockBlock_7, mmuJ_126⟩ = mmuFinalMem := by
  rw [mmuChunk_127]
  rfl

theorem mmuRun_126 :
    runPages 0xFC0000 64 ⟨mmuL1Final, mockBlock_7, mmuJ_125⟩ = mmuFinalMem := by
  rw [show (64 : Nat) = 32 + 32 from rfl, runPages_split, mmuChunk_126,
    show (0xFC0000 + PAGE_SIZE * 32 : Nat) = 0xFE0000 from by norm_num [PAGE_SIZE]]
  exact mmuRun_127

theorem mmuRun_125 :
    runPages 0xFA0000 96 ⟨mmuL1Final, mockBlock_7, mmuJ_124⟩ = mmuFinalMem := by
  rw [show (96 : Nat) = 32 + 64 from rfl, runPages_split, mmuChunk_125,
    show (0xFA0000 + PAGE_SIZE * 32 : Nat) = 0xFC0000 from by norm_num [PAGE_SIZE]]
  exact mmuRun_126

theorem mmuRun_124 :
    runPages 0xF80000 128 ⟨mmuL1Final, mockBlock_7, mmuJ_123⟩ = mmuFinalMem := by
  rw [show (128 : Nat) = 32 + 96 from rfl, runPages_split, mmuChunk_124,
    show (0xF80000 + PAGE_SIZE * 32 : Nat) = 0xFA0000 from by norm_num [PAGE_SIZE]]
  exact mmuRun_125

theorem mmuRun_123 :
    runPages 0xF60000 160 ⟨mmuL1Final, mockBlock_7, mmuJ_122⟩ = mmuFinalMem := by
  rw [show (160 : Nat) = 32 + 128 from rfl, runPages_split, mmuChunk_123,
    show (0xF60000 + PAGE_SIZE * 32 : Nat) = 0xF80000 from by norm_num [PAGE_SIZE]]
  exact mmuRun_124

theorem mmuRun_122 :
    runPages 0xF40000 192 ⟨mmuL1Final, mockBlock_7, mmuJ_121⟩ = mmuFinalMem := by
  rw [show (192 : Nat) = 32 + 160 from rfl, runPages_split, mmuChunk_122,
    show (0xF40000 + PAGE_SIZE * 32 : Nat) = 0xF60000 from by norm_num [PAGE_SIZE]]
  exact mmuRun_123

theorem mmuRun_121 :
    runPages 0xF20000 224 ⟨mmuL1Final, mockBlock_7, mmuJ_120⟩ = mmuFinalMem := by
  rw [show (224 : Nat) = 32 + 192 from rfl, runPages_split, mmuChunk_121,
    show (0xF20000 + PAGE_SIZE * 32 : Nat) = 0xF40000 from by norm_num [PAGE_SIZE]]
  exact mmuRun_122

theorem mmuRun_120 :
    runPages 0xF00000 256 ⟨mmuL1Final, mockBlock_7, mmuJ_119⟩ = mmuFinalMem := by
  rw [show (256 : Nat) = 32 + 224 from rfl, runPages_split, mmuChunk_120,
    show (0xF00000 + PAGE_SIZE * 32 : Nat) = 0xF20000 from by norm_num [PAGE_SIZE]]
  exact mmuRun_121

theorem mmuRun_119 :
    runPages 0xEE0000 288 ⟨mmuL1Final, mockBlock_7, mmuJ_118⟩ = mmuFinalMem := by
  rw [show (288 : Nat) = 32 + 256 from rfl, runPages_split, mmuChunk_119,
    show (0xEE0000 + PAGE_SIZE * 32 : Nat) = 0xF00000 from by norm_num [PAGE_SIZE]]
  exact mmuRun_120

theorem mmuRun_118 :
    runPages 0xEC0000 320 ⟨mmuL1Final, mockBlock_7, mmuJ_117⟩ = mmuFinalMem := by
  rw [show (320 : Nat) = 32 + 288 from rfl, runPages_split, mmuChunk_118,
    show (0xEC0000 + PAGE_SIZE * 32 : Nat) = 0xEE0000 from by norm_num [PAGE_SIZE]]
  exact mmuRun_119

theorem mmuRun_117 :
    runPages 0xEA0000 352 ⟨mmuL1Final, mockBlock_7, mmuJ_116⟩ = mmuFinalMem := by
  rw [show (352 : Nat) = 32 + 320 from rfl, runPages_split, mmuChunk_117,
    show (0xEA0000 + PAGE_SIZE * 32 : Nat) = 0xEC0000 from by norm_num [PAGE_SIZE]]
  exact mmuRun_118

theorem mmuRun_116 :
    runPages 0xE80000 384 ⟨mmuL1Final, mockBlock_7, mmuJ_115⟩ = mmuFinalMem := by
  rw [show (384 : Nat) = 32 + 352 from rfl, runPages_split, mmuChunk_116,
    show (0xE80000 + PAGE_SIZE * 32 : Nat) = 0xEA0000 from by norm_num [PAGE_SIZE]]
  exact mmuRun_117

theorem mmuRun_115 :
    runPages 0xE60000 416 ⟨mmuL1Final, mockBlock_7, mmuJ_114⟩ = mmuFinalMem := by
  rw [show (416 : Nat) = 32 + 384 from rfl, runPages_split, mmuChunk_115,
    show (0xE60000 + PAGE_SIZE * 32 : Nat) = 0xE80000 from by norm_num [PAGE_SIZE]]
  exact mmuRun_116

theorem mmuRun_114 :
    runPages 0xE40000 448 ⟨mmuL1Final, mockBlock_7, mmuJ_113⟩ = mmuFinalMem := by
  rw [show (448 : Nat) = 32 + 416 from rfl, runPages_split, mmuChunk_114,
    show (0xE40000 + PAGE_SIZE * 32 : Nat) = 0xE60000 from by norm_num [PAGE_SIZE]]
  exact mmuRun_115

theorem mmuRun_113 :
    runPages 0xE20000 480 ⟨mmuL1Final, mockBlock_7, mmuJ_112⟩ = mmuFinalMem := by
  rw [show (480 : Nat) = 32 + 448 from rfl, runPages_split, mmuChunk_113,
    show (0xE20000 + PAGE_SIZE * 32 : Nat) = 0xE40000 from by norm_num [PAGE_SIZE]]
  exact mmuRun_114

theorem mmuRun_112 :
    runPages 0xE00000 512 ⟨mmuL1Final, mockBlock_6, mmuJ_111⟩ = mmuFinalMem := by
  rw [show (512 : Nat) = 32 + 480 from rfl, runPages_split, mmuChunk_112,
    show (0xE00000 + PAGE_SIZE * 32 : Nat) = 0xE20000 from by norm_num [PAGE_SIZE]]
  exact mmuRun_113

theorem mmuRun_111 :
    runPages 0xDE0000 544 ⟨mmuL1Final, mockBlock_6, mmuJ_110⟩ = mmuFinalMem := by
  rw [show (544 : Nat) = 32 + 512 from rfl, runPages_split, mmuChunk_111,
    show (0xDE0000 + PAGE_SIZE * 32 : Nat) = 0xE00000 from by norm_num [PAGE_SIZE]]
  exact mmuRun_112

theorem mmuRun_110 :
    runPages 0xDC0000 576 ⟨mmuL1Final, mockBlock_6, mmuJ_109⟩ = mmuFinalMem := by
  rw [show (576 : Nat) = 32 + 544 from rfl, runPages_split, mmuChunk_110,
    show (0xDC0000 + PAGE_SIZE * 32 : Nat) = 0xDE0000 from by norm_num [PAGE_SIZE]]
  exact mmuRun_111

theorem mmuRun_109 :
    runPages 0xDA0000 608 ⟨mmuL1Final, mockBlock_6, mmuJ_108⟩ = mmuFinalMem := by
  rw [show (608 : Nat) = 32 + 576 from rfl, runPages_split, mmuChunk_109,
    show (0xDA0000 + PAGE_SIZE * 32 : Nat) = 0xDC0000 from by norm_num [PAGE_SIZE]]
  exact mmuRun_110

theorem mmuRun_108 :
    runPages 0xD80000 640 ⟨mmuL1Final, mockBlock_6, mmuJ_107⟩ = mmuFinalMem := by
  rw [show (640 : Nat) = 32 + 608 from rfl, runPages_split, mmuChunk_108,
    show (0xD80000 + PAGE_SIZE * 32 : Nat) = 0xDA0000 from by norm_num [PAGE_SIZE]]
  exact mmuRun_109

theorem mmuRun_107 :
    runPages 0xD60000 672 ⟨mmuL1Final, mockBlock_6, mmuJ_106⟩ = mmuFinalMem := by
  rw [show (672 : Nat) = 32 + 640 from rfl, runPages_split, mmuChunk_107,
    show (0xD60000 + PAGE_SIZE * 32 : Nat) = 0xD80000 from by norm_num [PAGE_SIZE]]
  exact mmuRun_108

theorem mmuRun_106 :
    runPages 0xD40000 704 ⟨mmuL1Final, mockBlock_6, mmuJ_105⟩ = mmuFinalMem := by
  rw [show (704 : Nat) = 32 + 672 from rfl, runPages_split, mmuChunk_106,
    show (0xD40000 + PAGE_SIZE * 32 : Nat) = 0xD60000 from by norm_num [PAGE_SIZE]]
  exact mmuRun_107

theorem mmuRun_105 :
    runPages 0xD20000 736 ⟨mmuL1Final, mockBlock_6, mmuJ_104⟩ = mmuFinalMem := by
  rw [show (736 : Nat) = 32 + 704 from rfl, runPages_split, mmuChunk_105,
    show (0xD20000 + PAGE_SIZE * 32 : Nat) = 0xD40000 from by norm_num [PAGE_SIZE]]
  exact mmuRun_106

theorem mmuRun_104 :
    runPages 0xD00000 768 ⟨mmuL1Final, mockBlock_6, mmuJ_103⟩ = mmuFinalMem := by
  rw [show (768 : Nat) = 32 + 736 from rfl, runPages_split, mmuChunk_104,
    show (0xD00000 + PAGE_SIZE * 32 : Nat) = 0xD20000 from by norm_num [PAGE_SIZE]]
  exact mmuRun_105

theorem mmuRun_103 :
    runPages 0xCE0000 800 ⟨mmuL1Final, mockBlock_6, mmuJ_102⟩ = mmuFinalMem := by
  rw [show (800 : Nat) = 32 + 768 from rfl, runPages_split, mmuChunk_103,
    show (0xCE0000 + PAGE_SIZE * 32 : Nat) = 0xD00000 from by norm_num [PAGE_SIZE]]
  exact mmuRun_104

theorem mmuRun_102 :
    runPages 0xCC0000 832 ⟨mmuL1Final, mockBlock_6, mmuJ_101⟩ = mmuFinalMem := by
  rw [show (832 : Nat) = 32 + 800 from rfl, runPages_split, mmuChunk_102,
    show (0xCC0000 + PAGE_SIZE * 32 : Nat) = 0xCE0000 from by norm_num [PAGE_SIZE]]
  exact mmuRun_103

theorem mmuRun_101 :
    runPages 0xCA0000 864 ⟨mmuL1Final, mockBlock_6, mmuJ_100⟩ = mmuFinalMem := by
  rw [show (864 : Nat) = 32 + 832 from rfl, runPages_split, mmuChunk_101,
    show (0xCA0000 + PAGE_SIZE * 32 : Nat) = 0xCC0000 from by norm_num [PAGE_SIZE]]
  exact mmuRun_102

theorem mmuRun_100 :
    runPages 0xC80000 896 ⟨mmuL1Final, mockBlock_6, mmuJ_99⟩ = mmuFinalMem := by
  rw [show (896 : Nat) = 32 + 864 from rfl, runPages_split, mmuChunk_100,
    show (0xC80000 + PAGE_SIZE * 32 : Nat) = 0xCA0000 from by norm_num [PAGE_SIZE]]
  exact mmuRun_101

theorem mmuRun_99 :
    runPages 0xC60000 928 ⟨mmuL1Final, mockBlock_6, mmuJ_98⟩ = mmuFinalMem := by
  rw [show (928 : Nat) = 32 + 896 from rfl, runPages_split, mmuChunk_99,
    show (0xC60000 + PAGE_SIZE * 32 : Nat) = 0xC80000 from by norm_num [PAGE_SIZE]]
  exact mmuRun_100

theorem mmuRun_98 :
    runPages 0xC40000 960 ⟨mmuL1Final, mockBlock_6, mmuJ_97⟩ = mmuFinalMem := by
  rw [show (960 : Nat) = 32 + 928 from rfl, runPages_split, mmuChunk_98,
    show (0xC40000 + PAGE_SIZE * 32 : Nat) = 0xC60000 from by norm_num [PAGE_SIZE]]
  exact mmuRun_99

theorem mmuRun_97 :
    runPages 0xC20000 992 ⟨mmuL1Final, mockBlock_6, mmuJ_96⟩ = mmuFinalMem := by
  rw [show (992 : Nat) = 32 + 960 from rfl, runPages_split, mmuChunk_97,
    show (0xC20000 + PAGE_SIZE * 32 : Nat) = 0xC40000 from by norm_num [PAGE_SIZE]]
  exact mmuRun_98

theorem mmuRun_96 :
    runPages 0xC00000 1024 ⟨mmuL1Final, mockBlock_5, mmuJ_95⟩ = mmuFinalMem := by
  rw [show (1024 : Nat) = 32 + 992 from rfl, runPages_split, mmuChunk_96,
    show (0xC00000 + PAGE_SIZE * 32 : Nat) = 0xC20000 from by norm_num [PAGE_SIZE]]
  exact mmuRun_97

theorem mmuRun_95 :
    runPages 0xBE0000 1056 ⟨mmuL1Final, mockBlock_5, mmuJ_94⟩ = mmuFinalMem := by
  rw [show (1056 : Nat) = 32 + 1024 from rfl, runPages_split, mmuChunk_95,
    show (0xBE0000 + PAGE_SIZE * 32 : Nat) = 0xC00000 from by norm_num [PAGE_SIZE]]
  exact mmuRun_96

theorem mmuRun_94 :
    runPages 0xBC0000 1088 ⟨mmuL1Final, mockBlock_5, mmuJ_93⟩ = mmuFinalMem := by
  rw [show (1088 : Nat) = 32 + 1056 from rfl, runPages_split, mmuChunk_94,
    show (0xBC0000 + PAGE_SIZE * 32 : Nat) = 0xBE0000 from by norm_num [PAGE_SIZE]]
  exact mmuRun_95

theorem mmuRun_93 :
    runPages 0xBA0000 1120 ⟨mmuL1Final, mockBlock_5, mmuJ_92⟩ = mmuFinalMem := by
  rw [show (1120 : Nat) = 32 + 1088 from rfl, runPages_split, mmuChunk_93,
    show (0xBA0000 + PAGE_SIZE * 32 : Nat) = 0xBC0000 from by norm_num [PAGE_SIZE]]
  exact mmuRun_94

theorem mmuRun_92 :
    runPages 0xB80000 1152 ⟨mmuL1Final, mockBlock_5, mmuJ_91⟩ = mmuFinalMem := by
  rw [show (1152 : Nat) = 32 + 1120 from rfl, runPages_split, mmuChunk_92,
    show (0xB80000 + PAGE_SIZE * 32 : Nat) = 0xBA0000 from by norm_num [PAGE_SIZE]]
  exact mmuRun_93

theorem mmuRun_91 :
    runPages 0xB60000 1184 ⟨mmuL1Final, mockBlock_5, mmuJ_90⟩ = mmuFinalMem := by
  rw [show (1184 : Nat) = 32 + 1152 from rfl, runPages_split, mmuChunk_91,
    show (0xB60000 + PAGE_SIZE * 32 : Nat) = 0xB80000 from by norm_num [PAGE_SIZE]]
  exact mmuRun_92

theorem mmuRun_90 :
    runPages 0xB40000 1216 ⟨mmuL1Final, mockBlock_5, mmuJ_89⟩ = mmuFinalMem := by
  rw [show (1216 : Nat) = 32 + 1184 from rfl, runPages_split, mmuChunk_90,
    show (0xB40000 + PAGE_SIZE * 32 : Nat) = 0xB60000 from by norm_num [PAGE_SIZE]]
  exact mmuRun_91

theorem mmuRun_89 :
    runPages 0xB20000 1248 ⟨mmuL1Final, mockBlock_5, mmuJ_88⟩ = mmuFinalMem := by
  rw [show (1248 : Nat) = 32 + 1216 from rfl, runPages_split, mmuChunk_89,
    show (0xB20000 + PAGE_SIZE * 32 : Nat) = 0xB40000 from by norm_num [PAGE_SIZE]]
  exact mmuRun_90

theorem mmuRun_88 :
    runPages 0xB00000 1280 ⟨mmuL1Final, mockBlock_5, mmuJ_87⟩ = mmuFinalMem := by
  rw [show (1280 : Nat) = 32 + 1248 from rfl, runPages_split, mmuChunk_88,
    show (0xB00000 + PAGE_SIZE * 32 : Nat) = 0xB20000 from by norm_num [PAGE_SIZE]]
  exact mmuRun_89

theorem mmuRun_87 :
    runPages 0xAE0000 1312 ⟨mmuL1Final, mockBlock_5, mmuJ_86⟩ = mmuFinalMem := by
  rw [show (1312 : Nat) = 32 + 1280 from rfl, runPages_split, mmuChunk_87,
    show (0xAE0000 + PAGE_SIZE * 32 : Nat) = 0xB00000 from by norm_num [PAGE_SIZE]]
  exact mmuRun_88

theorem mmuRun_86 :
    runPages 0xAC0000 1344 ⟨mmuL1Final, mockBlock_5, mmuJ_85⟩ = mmuFinalMem := by
  rw [show (1344 : Nat) = 32 + 1312 from rfl, runPages_split, mmuChunk_86,
    show (0xAC0000 + PAGE_SIZE * 32 : Nat) = 0xAE0000 from by norm_num [PAGE_SIZE]]
  exact mmuRun_87

theorem mmuRun_85 :
    runPages 0xAA0000 1376 ⟨mmuL1Final, mockBlock_5, mmuJ_84⟩ = mmuFinalMem := by
  rw [show (1376 : Nat) = 32 + 1344 from rfl, runPages_split, mmuChunk_85,
    show (0xAA0000 + PAGE_SIZE * 32 : Nat) = 0xAC0000 from by norm_num [PAGE_SIZE]]
  exact mmuRun_86

theorem mmuRun_84 :
    runPages 0xA80000 1408 ⟨mmuL1Final, mockBlock_5, mmuJ_83⟩ = mmuFinalMem := by
  rw [show (1408 : Nat) = 32 + 1376 from rfl, runPages_split, mmuChunk_84,
    show (0xA80000 + PAGE_SIZE * 32 : Nat) = 0xAA0000 from by norm_num [PAGE_SIZE]]
  exact mmuRun_85

theorem mmuRun_83 :
    runPages 0xA60000 1440 ⟨mmuL1Final, mockBlock_5, mmuJ_82⟩ = mmuFinalMem := by
  rw [show (1440 : Nat) = 32 + 1408 from rfl, runPages_split, mmuChunk_83,
    show (0xA60000 + PAGE_SIZE * 32 : Nat) = 0xA80000 from by norm_num [PAGE_SIZE]]
  exact mmuRun_84

theorem mmuRun_82 :
    runPages 0xA40000 1472 ⟨mmuL1Final, mockBlock_5, mmuJ_81⟩ = mmuFinalMem := by
  rw [show (1472 : Nat) = 32 + 1440 from rfl, runPages_split, mmuChunk_82,
    show (0xA40000 + PAGE_SIZE * 32 : Nat) = 0xA60000 from by norm_num [PAGE_SIZE]]
  exact mmuRun_83

theorem mmuRun_81 :
    runPages 0xA20000 1504 ⟨mmuL1Final, mockBlock_5, mmuJ_80⟩ = mmuFinalMem := by
  rw [show (1504 : Nat) = 32 + 1472 from rfl, runPages_split, mmuChunk_81,
    show (0xA20000 + PAGE_SIZE * 32 : Nat) = 0xA40000 from by norm_num [PAGE_SIZE]]
  exact mmuRun_82

theorem mmuRun_80 :
    runPages 0xA00000 1536 ⟨mmuL1Final, mockBlock_4, mmuJ_79⟩ = mmuFinalMem := by
  rw [show (1536 : Nat) = 32 + 1504 from rfl, runPages_split, mmuChunk_80,
    show (0xA00000 + PAGE_SIZE * 32 : Nat) = 0xA20000 from by norm_num [PAGE_SIZE]]
  exact mmuRun_81

theorem mmuRun_79 :
    runPages 0x9E0000 1568 ⟨mmuL1Final, mockBlock_4, mmuJ_78⟩ = mmuFinalMem := by
  rw [show (1568 : Nat) = 32 + 1536 from rfl, runPages_split, mmuChunk_79,
    show (0x9E0000 + PAGE_SIZE * 32 : Nat) = 0xA00000 from by norm_num [PAGE_SIZE]]
  exact mmuRun_80

theorem mmuRun_78 :
    runPages 0x9C0000 1600 ⟨mmuL1Final, mockBlock_4, mmuJ_77⟩ = mmuFinalMem := by
  rw [show (1600 : Nat) = 32 + 1568 from rfl, runPages_split, mmuChunk_78,
    show (0x9C0000 + PAGE_SIZE * 32 : Nat) = 0x9E0000 from by norm_num [PAGE_SIZE]]
  exact mmuRun_79

theorem mmuRun_77 :
    runPages 0x9A0000 1632 ⟨mmuL1Final, mockBlock_4, mmuJ_76⟩ = mmuFinalMem := by
  rw [show (1632 : Nat) = 32 + 1600 from rfl, runPages_split, mmuChunk_77,
    show (0x9A0000 + PAGE_SIZE * 32 : Nat) = 0x9C0000 from by norm_num [PAGE_SIZE]]
  exact mmuRun_78

theorem mmuRun_76 :
    runPages 0x980000 1664 ⟨mmuL1Final, mockBlock_4, mmuJ_75⟩ = mmuFinalMem := by
  rw [show (1664 : Nat) = 32 + 1632 from rfl, runPages_split, mmuChunk_76,
    show (0x980000 + PAGE_SIZE * 32 : Nat) = 0x9A0000 from by norm_num [PAGE_SIZE]]
  exact mmuRun_77

theorem mmuRun_75 :
    runPages 0x960000 1696 ⟨mmuL1Final, mockBlock_4, mmuJ_74⟩ = mmuFinalMem := by
  rw [show (1696 : Nat) = 32 + 1664 from rfl, runPages_split, mmuChunk_75,
    show (0x960000 + PAGE_SIZE * 32 : Nat) = 0x980000 from by norm_num [PAGE_SIZE]]
  exact mmuRun_76

theorem mmuRun_74 :
    runPages 0x940000 1728 ⟨mmuL1Final, mockBlock_4, mmuJ_73⟩ = mmuFinalMem := by
  rw [show (1728 : Nat) = 32 + 1696 from rfl, runPages_split, mmuChunk_74,
    show (0x940000 + PAGE_SIZE * 32 : Nat) = 0x960000 from by norm_num [PAGE_SIZE]]
  exact mmuRun_75

theorem mmuRun_73 :
    runPages 0x920000 1760 ⟨mmuL1Final, mockBlock_4, mmuJ_72⟩ = mmuFinalMem := by
  rw [show (1760 : Nat) = 32 + 1728 from rfl, runPages_split, mmuChunk_73,
    show (0x920000 + PAGE_SIZE * 32 : Nat) = 0x940000 from by norm_num [PAGE_SIZE]]
  exact mmuRun_74

theorem mmuRun_72 :
    runPages 0x900000 1792 ⟨mmuL1Final, mockBlock_4, mmuJ_71⟩ = mmuFinalMem := by
  rw [show (1792 : Nat) = 32 + 1760 from rfl, runPages_split, mmuChunk_72,
    show (0x900000 + PAGE_SIZE * 32 : Nat) = 0x920000 from by norm_num [PAGE_SIZE]]
  exact mmuRun_73

theorem mmuRun_71 :
    runPages 0x8E0000 1824 ⟨mmuL1Final, mockBlock_4, mmuJ_70⟩ = mmuFinalMem := by
  rw [show (1824 : Nat) = 32 + 1792 from rfl, runPages_split, mmuChunk_71,
    show (0x8E0000 + PAGE_SIZE * 32 : Nat) = 0x900000 from by norm_num [PAGE_SIZE]]
  exact mmuRun_72

theorem mmuRun_70 :
    runPages 0x8C0000 1856 ⟨mmuL1Final, mockBlock_4, mmuJ_69⟩ = mmuFinalMem := by
  rw [show (1856 : Nat) = 32 + 1824 from rfl, runPages_split, mmuChunk_70,
    show (0x8C0000 + PAGE_SIZE * 32 : Nat) = 0x8E0000 from by norm_num [PAGE_SIZE]]
  exact mmuRun_71

theorem mmuRun_69 :
    runPages 0x8A0000 1888 ⟨mmuL1Final, mockBlock_4, mmuJ_68⟩ = mmuFinalMem := by
  rw [show (1888 : Nat) = 32 + 1856 from rfl, runPages_split, mmuChunk_69,
    show (0x8A0000 + PAGE_SIZE * 32 : Nat) = 0x8C0000 from by norm_num [PAGE_SIZE]]
  exact mmuRun_70

theorem mmuRun_68 :
    runPages 0x880000 1920 ⟨mmuL1Final, mockBlock_4, mmuJ_67⟩ = mmuFinalMem := by
  rw [show (1920 : Nat) = 32 + 1888 from rfl, runPages_split, mmuChunk_68,
    show (0x880000 + PAGE_SIZE * 32 : Nat) = 0x8A0000 from by norm_num [PAGE_SIZE]]
  exact mmuRun_69

theorem mmuRun_67 :
    runPages 0x860000 1952 ⟨mmuL1Final, mockBlock_4, mmuJ_66⟩ = mmuFinalMem := by
  rw [show (1952 : Nat) = 32 + 1920 from rfl, runPages_split, mmuChunk_67,
    show (0x860000 + PAGE_SIZE * 32 : Nat) = 0x880000 from by norm_num [PAGE_SIZE]]
  exact mmuRun_68

theorem mmuRun_66 :
    runPages 0x840000 1984 ⟨mmuL1Final, mockBlock_4, mmuJ_65⟩ = mmuFinalMem := by
  rw [show (1984 : Nat) = 32 + 1952 from rfl, runPages_split, mmuChunk_66,
    show (0x840000 + PAGE_SIZE * 32 : Nat) = 0x860000 from by norm_num [PAGE_SIZE]]
  exact mmuRun_67

theorem mmuRun_65 :
    runPages 0x820000 2016 ⟨mmuL1Final, mockBlock_4, mmuJ_64⟩ = mmuFinalMem := by
  rw [show (2016 : Nat) = 32 + 1984 from rfl, runPages_split, mmuChunk_65,
    show (0x820000 + PAGE_SIZE * 32 : Nat) = 0x840000 from by norm_num [PAGE_SIZE]]
  exact mmuRun_66

theorem mmuRun_64 :
    runPages 0x800000 2048 ⟨mmuL1Final, mockBlock_3, mmuJ_63⟩ = mmuFinalMem := by
  rw [show (2048 : Nat) = 32 + 2016 from rfl, runPages_split, mmuChunk_64,
    show (0x800000 + PAGE_SIZE * 32 : Nat) = 0x820000 from by norm_num [PAGE_SIZE]]
  exact mmuRun_65

theorem mmuRun_63 :
    runPages 0x7E0000 2080 ⟨mmuL1Final, mockBlock_3, mmuJ_62⟩ = mmuFinalMem := by
  rw [show (2080 : Nat) = 32 + 2048 from rfl, runPages_split, mmuChunk_63,
    show (0x7E0000 + PAGE_SIZE * 32 : Nat) = 0x800000 from by norm_num [PAGE_SIZE]]
  exact mmuRun_64

theorem mmuRun_62 :
    runPages 0x7C0000 2112 ⟨mmuL1Final, mockBlock_3, mmuJ_61⟩ = mmuFinalMem := by
  rw [show (2112 : Nat) = 32 + 2080 from rfl, runPages_split, mmuChunk_62,
    show (0x7C0000 + PAGE_SIZE * 32 : Nat) = 0x7E0000 from by norm_num [PAGE_SIZE]]
  exact mmuRun_63

theorem mmuRun_61 :
    runPages 0x7A0000 2144 ⟨mmuL1Final, mockBlock_3, mmuJ_60⟩ = mmuFinalMem := by
  rw [show (2144 : Nat) = 32 + 2112 from rfl, runPages_split, mmuChunk_61,
    show (0x7A0000 + PAGE_SIZE * 32 : Nat) = 0x7C0000 from by norm_num [PAGE_SIZE]]
  exact mmuRun_62

theorem mmuRun_60 :
    runPages 0x780000 2176 ⟨mmuL1Final, mockBlock_3, mmuJ_59⟩ = mmuFinalMem := by
  rw [show (2176 : Nat) = 32 + 2144 from rfl, runPages_split, mmuChunk_60,
    show (0x780000 + PAGE_SIZE * 32 : Nat) = 0x7A0000 from by norm_num [PAGE_SIZE]]
  exact mmuRun_61

theorem mmuRun_59 :
    runPages 0x760000 2208 ⟨mmuL1Final, mockBlock_3, mmuJ_58⟩ = mmuFinalMem := by
  rw [show (2208 : Nat) = 32 + 2176 from rfl, runPages_split, mmuChunk_59,
    show (0x760000 + PAGE_SIZE * 32 : Nat) = 0x780000 from by norm_num [PAGE_SIZE]]
  exact mmuRun_60

theorem mmuRun_58 :
    runPages 0x740000 2240 ⟨mmuL1Final, mockBlock_3, mmuJ_57⟩ = mmuFinalMem := by
  rw [show (2240 : Nat) = 32 + 2208 from rfl, runPages_split, mmuChunk_58,
    show (0x740000 + PAGE_SIZE * 32 : Nat) = 0x760000 from by norm_num [PAGE_SIZE]]
  exact mmuRun_59

theorem mmuRun_57 :
    runPages 0x720000 2272 ⟨mmuL1Final, mockBlock_3, mmuJ_56⟩ = mmuFinalMem := by
  rw [show (2272 : Nat) = 32 + 2240 from rfl, runPages_split, mmuChunk_57,
    show (0x720000 + PAGE_SIZE * 32 : Nat) = 0x740000 from by norm_num [PAGE_SIZE]]
  exact mmuRun_58

theorem mmuRun_56 :
    runPages 0x700000 2304 ⟨mmuL1Final, mockBlock_3, mmuJ_55⟩ = mmuFinalMem := by
  rw [show (2304 : Nat) = 32 + 2272 from rfl, runPages_split, mmuChunk_56,
    show (0x700000 + PAGE_SIZE * 32 : Nat) = 0x720000 from by norm_num [PAGE_SIZE]]
  exact mmuRun_57

theorem mmuRun_55 :
    runPages 0x6E0000 2336 ⟨mmuL1Final, mockBlock_3, mmuJ_54⟩ = mmuFinalMem := by
  rw [show (2336 : Nat) = 32 + 2304 from rfl, runPages_split, mmuChunk_55,
    show (0x6E0000 + PAGE_SIZE * 32 : Nat) = 0x700000 from by norm_num [PAGE_SIZE]]
  exact mmuRun_56

theorem mmuRun_54 :
    runPages 0x6C0000 2368 ⟨mmuL1Final, mockBlock_3, mmuJ_53⟩ = mmuFinalMem := by
  rw [show (2368 : Nat) = 32 + 2336 from rfl, runPages_split, mmuChunk_54,
    show (0x6C0000 + PAGE_SIZE * 32 : Nat) = 0x6E0000 from by norm_num [PAGE_SIZE]]
  exact mmuRun_55

theorem mmuRun_53 :
    runPages 0x6A0000 2400 ⟨mmuL1Final, mockBlock_3, mmuJ_52⟩ = mmuFinalMem := by
  rw [show (2400 : Nat) = 32 + 2368 from rfl, runPages_split, mmuChunk_53,
    show (0x6A0000 + PAGE_SIZE * 32 : Nat) = 0x6C0000 from by norm_num [PAGE_SIZE]]
  exact mmuRun_54

theorem mmuRun_52 :
    runPages 0x680000 2432 ⟨mmuL1Final, mockBlock_3, mmuJ_51⟩ = mmuFinalMem := by
  rw [show (2432 : Nat) = 32 + 2400 from rfl, runPages_split, mmuChunk_52,
    show (0x680000 + PAGE_SIZE * 32 : Nat) = 0x6A0000 from by norm_num [PAGE_SIZE]]
  exact mmuRun_53

theorem mmuRun_51 :
    runPages 0x660000 2464 ⟨mmuL1Final, mockBlock_3, mmuJ_50⟩ = mmuFinalMem := by
  rw [show (2464 : Nat) = 32 + 2432 from rfl, runPages_split, mmuChunk_51,
    show (0x660000 + PAGE_SIZE * 32 : Nat) = 0x680000 from by norm_num [PAGE_SIZE]]
  exact mmuRun_52

theorem mmuRun_50 :
    runPages 0x640000 2496 ⟨mmuL1Final, mockBlock_3, mmuJ_49⟩ = mmuFinalMem := by
  rw [show (2496 : Nat) = 32 + 2464 from rfl, runPages_split, mmuChunk_50,
    show (0x640000 + PAGE_SIZE * 32 : Nat) = 0x660000 from by norm_num [PAGE_SIZE]]
  exact mmuRun_51

theorem mmuRun_49 :
    runPages 0x620000 2528 ⟨mmuL1Final, mockBlock_3, mmuJ_48⟩ = mmuFinalMem := by
  rw [show (2528 : Nat) = 32 + 2496 from rfl, runPages_split, mmuChunk_49,
    show (0x620000 + PAGE_SIZE * 32 : Nat) = 0x640000 from by norm_num [PAGE_SIZE]]
  exact mmuRun_50

theorem mmuRun_48 :
    runPages 0x600000 2560 ⟨mmuL1Final, mockBlock_2, mmuJ_47⟩ = mmuFinalMem := by
  rw [show (2560 : Nat) = 32 + 2528 from rfl, runPages_split, mmuChunk_48,
    show (0x600000 + PAGE_SIZE * 32 : Nat) = 0x620000 from by norm_num [PAGE_SIZE]]
  exact mmuRun_49

theorem mmuRun_47 :
    runPages 0x5E0000 2592 ⟨mmuL1Final, mockBlock_2, mmuJ_46⟩ = mmuFinalMem := by
  rw [show (2592 : Nat) = 32 + 2560 from rfl, runPages_split, mmuChunk_47,
    show (0x5E0000 + PAGE_SIZE * 32 : Nat) = 0x600000 from by norm_num [PAGE_SIZE]]
  exact mmuRun_48

theorem mmuRun_46 :
    runPages 0x5C0000 2624 ⟨mmuL1Final, mockBlock_2, mmuJ_45⟩ = mmuFinalMem := by
  rw [show (2624 : Nat) = 32 + 2592 from rfl, runPages_split, mmuChunk_46,
    show (0x5C0000 + PAGE_SIZE * 32 : Nat) = 0x5E0000 from by norm_num [PAGE_SIZE]]
  exact mmuRun_47

theorem mmuRun_45 :
    runPages 0x5A0000 2656 ⟨mmuL1Final, mockBlock_2, mmuJ_44⟩ = mmuFinalMem := by
  rw [show (2656 : Nat) = 32 + 2624 from rfl, runPages_split, mmuChunk_45,
    show (0x5A0000 + PAGE_SIZE * 32 : Nat) = 0x5C0000 from by norm_num [PAGE_SIZE]]
  exact mmuRun_46

theorem mmuRun_44 :
    runPages 0x580000 2688 ⟨mmuL1Final, mockBlock_2, mmuJ_43⟩ = mmuFinalMem := by
  rw [show (2688 : Nat) = 32 + 2656 from rfl, runPages_split, mmuChunk_44,
    show (0x580000 + PAGE_SIZE * 32 : Nat) = 0x5A0000 from by norm_num [PAGE_SIZE]]
  exact mmuRun_45

theorem mmuRun_43 :
    runPages 0x560000 2720 ⟨mmuL1Final, mockBlock_2, mmuJ_42⟩ = mmuFinalMem := by
  rw [show (2720 : Nat) = 32 + 2688 from rfl, runPages_split, mmuChunk_43,
    show (0x560000 + PAGE_SIZE * 32 : Nat) = 0x580000 from by norm_num [PAGE_SIZE]]
  exact mmuRun_44

theorem mmuRun_42 :
    runPages 0x540000 2752 ⟨mmuL1Final, mockBlock_2, mmuJ_41⟩ = mmuFinalMem := by
  rw [show (2752 : Nat) = 32 + 2720 from rfl, runPages_split, mmuChunk_42,
    show (0x540000 + PAGE_SIZE * 32 : Nat) = 0x560000 from by norm_num [PAGE_SIZE]]
  exact mmuRun_43

theorem mmuRun_41 :
    runPages 0x520000 2784 ⟨mmuL1Final, mockBlock_2, mmuJ_40⟩ = mmuFinalMem := by
  rw [show (2784 : Nat) = 32 + 2752 from rfl, runPages_split, mmuChunk_41,
    show (0x520000 + PAGE_SIZE * 32 : Nat) = 0x540000 from by norm_num [PAGE_SIZE]]
  exact mmuRun_42

theorem mmuRun_40 :
    runPages 0x500000 2816 ⟨mmuL1Final, mockBlock_2, mmuJ_39⟩ = mmuFinalMem := by
  rw [show (2816 : Nat) = 32 + 2784 from rfl, runPages_split, mmuChunk_40,
    show (0x500000 + PAGE_SIZE * 32 : Nat) = 0x520000 from by norm_num [PAGE_SIZE]]
  exact mmuRun_41

theorem mmuRun_39 :
    runPages 0x4E0000 2848 ⟨mmuL1Final, mockBlock_2, mmuJ_38⟩ = mmuFinalMem := by
  rw [show (2848 : Nat) = 32 + 2816 from rfl, runPages_split, mmuChunk_39,
    show (0x4E0000 + PAGE_SIZE * 32 : Nat) = 0x500000 from by norm_num [PAGE_SIZE]]
  exact mmuRun_40

theorem mmuRun_38 :
    runPages 0x4C0000 2880 ⟨mmuL1Final, mockBlock_2, mmuJ_37⟩ = mmuFinalMem := by
  rw [show (2880 : Nat) = 32 + 2848 from rfl, runPages_split, mmuChunk_38,
    show (0x4C0000 + PAGE_SIZE * 32 : Nat) = 0x4E0000 from by norm_num [PAGE_SIZE]]
  exact mmuRun_39

theorem mmuRun_37 :
    runPages 0x4A0000 2912 ⟨mmuL1Final, mockBlock_2, mmuJ_36⟩ = mmuFinalMem := by
  rw [show (2912 : Nat) = 32 + 2880 from rfl, runPages_split, mmuChunk_37,
    show (0x4A0000 + PAGE_SIZE * 32 : Nat) = 0x4C0000 from by norm_num [PAGE_SIZE]]
  exact mmuRun_38

theorem mmuRun_36 :
    runPages 0x480000 2944 ⟨mmuL1Final, mockBlock_2, mmuJ_35⟩ = mmuFinalMem := by
  rw [show (2944 : Nat) = 32 + 2912 from rfl, runPages_split, mmuChunk_36,
    show (0x480000 + PAGE_SIZE * 32 : Nat) = 0x4A0000 from by norm_num [PAGE_SIZE]]
  exact mmuRun_37

theorem mmuRun_35 :
    runPages 0x460000 2976 ⟨mmuL1Final, mockBlock_2, mmuJ_34⟩ = mmuFinalMem := by
  rw [show (2976 : Nat) = 32 + 2944 from rfl, runPages_split, mmuChunk_35,
    show (0x460000 + PAGE_SIZE * 32 : Nat) = 0x480000 from by norm_num [PAGE_SIZE]]
  exact mmuRun_36

theorem mmuRun_34 :
    runPages 0x440000 3008 ⟨mmuL1Final, mockBlock_2, mmuJ_33⟩ = mmuFinalMem := by
  rw [show (3008 : Nat) = 32 + 2976 from rfl, runPages_split, mmuChunk_34,
    show (0x440000 + PAGE_SIZE * 32 : Nat) = 0x460000 from by norm_num [PAGE_SIZE]]
  exact mmuRun_35

theorem mmuRun_33 :
    runPages 0x420000 3040 ⟨mmuL1Final, mockBlock_2, mmuJ_32⟩ = mmuFinalMem := by
  rw [show (3040 : Nat) = 32 + 3008 from rfl, runPages_split, mmuChunk_33,
    show (0x420000 + PAGE_SIZE * 32 : Nat) = 0x440000 from by norm_num [PAGE_SIZE]]
  exact mmuRun_34

theorem mmuRun_32 :
    runPages 0x400000 3072 ⟨mmuL1Final, mockBlock_1, mmuJ_31⟩ = mmuFinalMem := by
  rw [show (3072 : Nat) = 32 + 3040 from rfl, runPages_split, mmuChunk_32,
    show (0x400000 + PAGE_SIZE * 32 : Nat) = 0x420000 from by norm_num [PAGE_SIZE]]
  exact mmuRun_33

theorem mmuRun_31 :
    runPages 0x3E0000 3104 ⟨mmuL1Final, mockBlock_1, mmuJ_30⟩ = mmuFinalMem := by
  rw [show (3104 : Nat) = 32 + 3072 from rfl, runPages_split, mmuChunk_31,
    show (0x3E0000 + PAGE_SIZE * 32 : Nat) = 0x400000 from by norm_num [PAGE_SIZE]]
  exact mmuRun_32

theorem mmuRun_30 :
    runPages 0x3C0000 3136 ⟨mmuL1Final, mockBlock_1, mmuJ_29⟩ = mmuFinalMem := by
  rw [show (3136 : Nat) = 32 + 3104 from rfl, runPages_split, mmuChunk_30,
    show (0x3C0000 + PAGE_SIZE * 32 : Nat) = 0x3E0000 from by norm_num [PAGE_SIZE]]
  exact mmuRun_31

theorem mmuRun_29 :
    runPages 0x3A0000 3168 ⟨mmuL1Final, mockBlock_1, mmuJ_28⟩ = mmuFinalMem := by
  rw [show (3168 : Nat) = 32 + 3136 from rfl, runPages_split, mmuChunk_29,
    show (0x3A0000 + PAGE_SIZE * 32 : Nat) = 0x3C0000 from by norm_num [PAGE_SIZE]]
  exact mmuRun_30

theorem mmuRun_28 :
    runPages 0x380000 3200 ⟨mmuL1Final, mockBlock_1, mmuJ_27⟩ = mmuFinalMem := by
  rw [show (3200 : Nat) = 32 + 3168 from rfl, runPages_split, mmuChunk_28,
    show (0x380000 + PAGE_SIZE * 32 : Nat) = 0x3A0000 from by norm_num [PAGE_SIZE]]
  exact mmuRun_29

theorem mmuRun_27 :
    runPages 0x360000 3232 ⟨mmuL1Final, mockBlock_1, mmuJ_26⟩ = mmuFinalMem := by
  rw [show (3232 : Nat) = 32 + 3200 from rfl, runPages_split, mmuChunk_27,
    show (0x360000 + PAGE_SIZE * 32 : Nat) = 0x380000 from by norm_num [PAGE_SIZE]]
  exact mmuRun_28

theorem mmuRun_26 :
    runPages 0x340000 3264 ⟨mmuL1Final, mockBlock_1, mmuJ_25⟩ = mmuFinalMem := by
  rw [show (3264 : Nat) = 32 + 3232 from rfl, runPages_split, mmuChunk_26,
    show (0x340000 + PAGE_SIZE * 32 : Nat) = 0x360000 from by norm_num [PAGE_SIZE]]
  exact mmuRun_27

theorem mmuRun_25 :
    runPages 0x320000 3296 ⟨mmuL1Final, mockBlock_1, mmuJ_24⟩ = mmuFinalMem := by
  rw [show (3296 : Nat) = 32 + 3264 from rfl, runPages_split, mmuChunk_25,
    show (0x320000 + PAGE_SIZE * 32 : Nat) = 0x340000 from by norm_num [PAGE_SIZE]]
  exact mmuRun_26

theorem mmuRun_24 :
    runPages 0x300000 3328 ⟨mmuL1Final, mockBlock_1, mmuJ_23⟩ = mmuFinalMem := by
  rw [show (3328 : Nat) = 32 + 3296 from rfl, runPages_split, mmuChunk_24,
    show (0x300000 + PAGE_SIZE * 32 : Nat) = 0x320000 from by norm_num [PAGE_SIZE]]
  exact mmuRun_25

theorem mmuRun_23 :
    runPages 0x2E0000 3360 ⟨mmuL1Final, mockBlock_1, mmuJ_22⟩ = mmuFinalMem := by
  rw [show (3360 : Nat) = 32 + 3328 from rfl, runPages_split, mmuChunk_23,
    show (0x2E0000 + PAGE_SIZE * 32 : Nat) = 0x300000 from by norm_num [PAGE_SIZE]]
  exact mmuRun_24

theorem mmuRun_22 :
    runPages 0x2C0000 3392 ⟨mmuL1Final, mockBlock_1, mmuJ_21⟩ = mmuFinalMem := by
  rw [show (3392 : Nat) = 32 + 3360 from rfl, runPages_split, mmuChunk_22,
    show (0x2C0000 + PAGE_SIZE * 32 : Nat) = 0x2E0000 from by norm_num [PAGE_SIZE]]
  exact mmuRun_23

theorem mmuRun_21 :
    runPages 0x2A0000 3424 ⟨mmuL1Final, mockBlock_1, mmuJ_20⟩ = mmuFinalMem := by
  rw [show (3424 : Nat) = 32 + 3392 from rfl, runPages_split, mmuChunk_21,
    show (0x2A0000 + PAGE_SIZE * 32 : Nat) = 0x2C0000 from by norm_num [PAGE_SIZE]]
  exact mmuRun_22

theorem mmuRun_20 :
    runPages 0x280000 3456 ⟨mmuL1Final, mockBlock_1, mmuJ_19⟩ = mmuFinalMem := by
  rw [show (3456 : Nat) = 32 + 3424 from rfl, runPages_split, mmuChunk_20,
    show (0x280000 + PAGE_SIZE * 32 : Nat) = 0x2A0000 from by norm_num [PAGE_SIZE]]
  exact mmuRun_21

theorem mmuRun_19 :
    runPages 0x260000 3488 ⟨mmuL1Final, mockBlock_1, mmuJ_18⟩ = mmuFinalMem := by
  rw [show (3488 : Nat) = 32 + 3456 from rfl, runPages_split, mmuChunk_19,
    show (0x260000 + PAGE_SIZE * 32 : Nat) = 0x280000 from by norm_num [PAGE_SIZE]]
  exact mmuRun_20

theorem mmuRun_18 :
    runPages 0x240000 3520 ⟨mmuL1Final, mockBlock_1, mmuJ_17⟩ = mmuFinalMem := by
  rw [show (3520 : Nat) = 32 + 3488 from rfl, runPages_split, mmuChunk_18,
    show (0x240000 + PAGE_SIZE * 32 : Nat) = 0x260000 from by norm_num [PAGE_SIZE]]
  exact mmuRun_19

theorem mmuRun_17 :
    runPages 0x220000 3552 ⟨mmuL1Final, mockBlock_1, mmuJ_16⟩ = mmuFinalMem := by
  rw [show (3552 : Nat) = 32 + 3520 from rfl, runPages_split, mmuChunk_17,
    show (0x220000 + PAGE_SIZE * 32 : Nat) = 0x240000 from by norm_num [PAGE_SIZE]]
  exact mmuRun_18

theorem mmuRun_16 :
    runPages 0x200000 3584 ⟨mmuL1Final, mockBlock_0, mmuJ_15⟩ = mmuFinalMem := by
  rw [show (3584 : Nat) = 32 + 3552 from rfl, runPages_split, mmuChunk_16,
    show (0x200000 + PAGE_SIZE * 32 : Nat) = 0x220000 from by norm_num [PAGE_SIZE]]
  exact mmuRun_17

theorem mmuRun_15 :
    runPages 0x1E0000 3616 ⟨mmuL1Final, mockBlock_0, mmuJ_14⟩ = mmuFinalMem := by
  rw [show (3616 : Nat) = 32 + 3584 from rfl, runPages_split, mmuChunk_15,
    show (0x1E0000 + PAGE_SIZE * 32 : Nat) = 0x200000 from by norm_num [PAGE_SIZE]]
  exact mmuRun_16

theorem mmuRun_14 :
    runPages 0x1C0000 3648 ⟨mmuL1Final, mockBlock_0, mmuJ_13⟩ = mmuFinalMem := by
  rw [show (3648 : Nat) = 32 + 3616 from rfl, runPages_split, mmuChunk_14,
    show (0x1C0000 + PAGE_SIZE * 32 : Nat) = 0x1E0000 from by norm_num [PAGE_SIZE]]
  exact mmuRun_15

theorem mmuRun_13 :
    runPages 0x1A0000 3680 ⟨mmuL1Final, mockBlock_0, mmuJ_12⟩ = mmuFinalMem := by
  rw [show (3680 : Nat) = 32 + 3648 from rfl, runPages_split, mmuChunk_13,
    show (0x1A0000 + PAGE_SIZE * 32 : Nat) = 0x1C0000 from by norm_num [PAGE_SIZE]]
  exact mmuRun_14

theorem mmuRun_12 :
    runPages 0x180000 3712 ⟨mmuL1Final, mockBlock_0, mmuJ_11⟩ = mmuFinalMem := by
  rw [show (3712 : Nat) = 32 + 3680 from rfl, runPages_split, mmuChunk_12,
    show (0x180000 + PAGE_SIZE * 32 : Nat) = 0x1A0000 from by norm_num [PAGE_SIZE]]
  exact mmuRun_13

theorem mmuRun_11 :
    runPages 0x160000 3744 ⟨mmuL1Final, mockBlock_0, mmuJ_10⟩ = mmuFinalMem := by
  rw [show (3744 : Nat) = 32 + 3712 from rfl, runPages_split, mmuChunk_11,
    show (0x160000 + PAGE_SIZE * 32 : Nat) = 0x180000 from by norm_num [PAGE_SIZE]]
  exact mmuRun_12

theorem mmuRun_10 :
    runPages 0x140000 3776 ⟨mmuL1Final, mockBlock_0, mmuJ_9⟩ = mmuFinalMem := by
  rw [show (3776 : Nat) = 32 + 3744 from rfl, runPages_split, mmuChunk_10,
    show (0x140000 + PAGE_SIZE * 32 : Nat) = 0x160000 from by norm_num [PAGE_SIZE]]
  exact mmuRun_11

theorem mmuRun_9 :
    runPages 0x120000 3808 ⟨mmuL1Final, mockBlock_0, mmuJ_8⟩ = mmuFinalMem := by
  rw [show (3808 : Nat) = 32 + 3776 from rfl, runPages_split, mmuChunk_9,
    show (0x120000 + PAGE_SIZE * 32 : Nat) = 0x140000 from by norm_num [PAGE_SIZE]]
  exact mmuRun_10

theorem mmuRun_8 :
    runPages 0x100000 3840 ⟨mmuL1Final, mockBlock_0, mmuJ_7⟩ = mmuFinalMem := by
  rw [show (3840 : Nat) = 32 + 3808 from rfl, runPages_split, mmuChunk_8,
    show (0x100000 + PAGE_SIZE * 32 : Nat) = 0x120000 from by norm_num [PAGE_SIZE]]
  exact mmuRun_9

theorem mmuRun_7 :
    runPages 0xE0000 3872 ⟨mmuL1Final, mockBlock_0, mmuJ_6⟩ = mmuFinalMem := by
  rw [show (3872 : Nat) = 32 + 3840 from rfl, runPages_split, mmuChunk_7,
    show (0xE0000 + PAGE_SIZE * 32 : Nat) = 0x100000 from by norm_num [PAGE_SIZE]]
  exact mmuRun_8

theorem mmuRun_6 :
    runPages 0xC0000 3904 ⟨mmuL1Final, mockBlock_0, mmuJ_5⟩ = mmuFinalMem := by
  rw [show (3904 : Nat) = 32 + 3872 from rfl, runPages_split, mmuChunk_6,
    show (0xC0000 + PAGE_SIZE * 32 : Nat) = 0xE0000 from by norm_num [PAGE_SIZE]]
  exact mmuRun_7

theorem mmuRun_5 :
    runPages 0xA0000 3936 ⟨mmuL1Final, mockBlock_0, mmuJ_4⟩ = mmuFinalMem := by
  rw [show (3936 : Nat) = 32 + 3904 from rfl, runPages_split, mmuChunk_5,
    show (0xA0000 + PAGE_SIZE * 32 : Nat) = 0xC0000 from by norm_num [PAGE_SIZE]]
  exact mmuRun_6

theorem mmuRun_4 :
    runPages 0x80000 3968 ⟨mmuL1Final, mockBlock_0, mmuJ_3⟩ = mmuFinalMem := by
  rw [show (3968 : Nat) = 32 + 3936 from rfl, runPages_split, mmuChunk_4,
    show (0x80000 + PAGE_SIZE * 32 : Nat) = 0xA0000 from by norm_num [PAGE_SIZE]]
  exact mmuRun_5

theorem mmuRun_3 :
    runPages 0x60000 4000 ⟨mmuL1Final, mockBlock_0, mmuJ_2⟩ = mmuFinalMem := by
  rw [show (4000 : Nat) = 32 + 3968 from rfl, runPages_split, mmuChunk_3,
    show (0x60000 + PAGE_SIZE * 32 : Nat) = 0x80000 from by norm_num [PAGE_SIZE]]
  exact mmuRun_4

theorem mmuRun_2 :
    runPages 0x40000 4032 ⟨mmuL1Final, mockBlock_0, mmuJ_1⟩ = mmuFinalMem := by
  rw [show (4032 : Nat) = 32 + 4000 from rfl, runPages_split, mmuChunk_2,
    show (0x40000 + PAGE_SIZE * 32 : Nat) = 0x60000 from by norm_num [PAGE_SIZE]]
  exact mmuRun_3

theorem mmuRun_1 :
    runPages 0x20000 4064 ⟨mmuL1Final, mockBlock_0, mmuJ_0⟩ = mmuFinalMem := by
  rw [show (4064 : Nat) = 32 + 4032 from rfl, runPages_split, mmuChunk_1,
    show (0x20000 + PAGE_SIZE * 32 : Nat) = 0x40000 from by norm_num [PAGE_SIZE]]
  exact mmuRun_2

theorem mmuRun_0 :
    runPages 0x0 4096 ⟨[], [], []⟩ = mmuFinalMem := by
  rw [show (4096 : Nat) = 32 + 4064 from rfl, runPages_split, mmuChunk_0,
    show (0x0 + PAGE_SIZE * 32 : Nat) = 0x20000 from by norm_num [PAGE_SIZE]]
  exact mmuRun_1

theorem mmuJNone_0 : lookupJ mmuJ_0 0xE00000 = none := by
  decide

theorem mmuJNone_1 : lookupJ mmuJ_1 0xE00000 = none := by
  simp only [mmuJ_1, lookupJ_append, mmuJNone_0]
  decide

theorem mmuJNone_2 : lookupJ mmuJ_2 0xE00000 = none := by
  simp only [mmuJ_2, lookupJ_append, mmuJNone_1]
  decide

theorem mmuJNone_3 : lookupJ mmuJ_3 0xE00000 = none := by
  simp only [mmuJ_3, lookupJ_append, mmuJNone_2]
  decide

theorem mmuJNone_4 : lookupJ mmuJ_4 0xE00000 = none := by
  simp only [mmuJ_4, lookupJ_append, mmuJNone_3]
  decide

theorem mmuJNone_5 : lookupJ mmuJ_5 0xE00000 = none := by
  simp only [mmuJ_5, lookupJ_append, mmuJNone_4]
  decide

theorem mmuJNone_6 : lookupJ mmuJ_6 0xE00000 = none := by
  simp only [mmuJ_6, lookupJ_append, mmuJNone_5]
  decide

theorem mmuJNone_7 : lookupJ mmuJ_7 0xE00000 = none := by
  simp only [mmuJ_7, lookupJ_append, mmuJNone_6]
  decide

theorem mmuJNone_8 : lookupJ mmuJ_8 0xE00000 = none := by
  simp only [mmuJ_8, lookupJ_append, mmuJNone_7]
  decide

theorem mmuJNone_9 : lookupJ mmuJ_9 0xE00000 = none := by
  simp only [mmuJ_9, lookupJ_append, mmuJNone_8]
  decide

theorem mmuJNone_10 : lookupJ mmuJ_10 0xE00000 = none := by
  simp only [mmuJ_10, lookupJ_append, mmuJNone_9]
  decide

theorem mmuJNone_11 : lookupJ mmuJ_11 0xE00000 = none := by
  simp only [mmuJ_11, lookupJ_append, mmuJNone_10]
  decide

theorem mmuJNone_12 : lookupJ mmuJ_12 0xE00000 = none := by
  simp only [mmuJ_12, lookupJ_append, mmuJNone_11]
  decide

theorem mmuJNone_13 : lookupJ mmuJ_13 0xE00000 = none := by
  simp only [mmuJ_13, lookupJ_append, mmuJNone_12]
  decide

theorem mmuJNone_14 : lookupJ mmuJ_14 0xE00000 = none := by
  simp only [mmuJ_14, lookupJ_append, mmuJNone_13]
  decide

theorem mmuJNone_15 : lookupJ mmuJ_15 0xE00000 = none := by
  simp only [mmuJ_15, lookupJ_append, mmuJNone_14]
  decide

theorem mmuJNone_16 : lookupJ mmuJ_16 0xE00000 = none := by
  simp only [mmuJ_16, lookupJ_append, mmuJNone_15]
  decide

theorem mmuJNone_17 : lookupJ mmuJ_17 0xE00000 = none := by
  simp only [mmuJ_17, lookupJ_append, mmuJNone_16]
  decide

theorem mmuJNone_18 : lookupJ mmuJ_18 0xE00000 = none := by
  simp only [mmuJ_18, lookupJ_append, mmuJNone_17]
  decide

theorem mmuJNone_19 : lookupJ mmuJ_19 0xE00000 = none := by
  simp only [mmuJ_19, lookupJ_append, mmuJNone_18]
  decide

theorem mmuJNone_20 : lookupJ mmuJ_20 0xE00000 = none := by
  simp only [mmuJ_20, lookupJ_append, mmuJNone_19]
  decide

theorem mmuJNone_21 : lookupJ mmuJ_21 0xE00000 = none := by
  simp only [mmuJ_21, lookupJ_append, mmuJNone_20]
  decide

theorem mmuJNone_22 : lookupJ mmuJ_22 0xE00000 = none := by
  simp only [mmuJ_22, lookupJ_append, mmuJNone_21]
  decide

theorem mmuJNone_23 : lookupJ mmuJ_23 0xE00000 = none := by
  simp only [mmuJ_23, lookupJ_append, mmuJNone_22]
  decide

theorem mmuJNone_24 : lookupJ mmuJ_24 0xE00000 = none := by
  simp only [mmuJ_24, lookupJ_append, mmuJNone_23]
  decide

theorem mmuJNone_25 : lookupJ mmuJ_25 0xE00000 = none := by
  simp only [mmuJ_25, lookupJ_append, mmuJNone_24]
  decide

theorem mmuJNone_26 : lookupJ mmuJ_26 0xE00000 = none := by
  simp only [mmuJ_26, lookupJ_append, mmuJNone_25]
  decide

theorem mmuJNone_27 : lookupJ mmuJ_27 0xE00000 = none := by
  simp only [mmuJ_27, lookupJ_append, mmuJNone_26]
  decide

theorem mmuJNone_28 : lookupJ mmuJ_28 0xE00000 = none := by
  simp only [mmuJ_28, lookupJ_append, mmuJNone_27]
  decide

theorem mmuJNone_29 : lookupJ mmuJ_29 0xE00000 = none := by
  simp only [mmuJ_29, lookupJ_append, mmuJNone_28]
  decide

theorem mmuJNone_30 : lookupJ mmuJ_30 0xE00000 = none := by
  simp only [mmuJ_30, lookupJ_append, mmuJNone_29]
  decide

theorem mmuJNone_31 : lookupJ mmuJ_31 0xE00000 = none := by
  simp only [mmuJ_31, lookupJ_append, mmuJNone_30]
  decide

theorem mmuJNone_32 : lookupJ mmuJ_32 0xE00000 = none := by
  simp only [mmuJ_32, lookupJ_append, mmuJNone_31]
  decide

theorem mmuJNone_33 : lookupJ mmuJ_33 0xE00000 = none := by
  simp only [mmuJ_33, lookupJ_append, mmuJNone_32]
  decide

theorem mmuJNone_34 : lookupJ mmuJ_34 0xE00000 = none := by
  simp only [mmuJ_34, lookupJ_append, mmuJNone_33]
  decide

theorem mmuJNone_35 : lookupJ mmuJ_35 0xE00000 = none := by
  simp only [mmuJ_35, lookupJ_append, mmuJNone_34]
  decide

theorem mmuJNone_36 : lookupJ mmuJ_36 0xE00000 = none := by
  simp only [mmuJ_36, lookupJ_append, mmuJNone_35]
  decide

theorem mmuJNone_37 : lookupJ mmuJ_37 0xE00000 = none := by
  simp only [mmuJ_37, lookupJ_append, mmuJNone_36]
  decide

theorem mmuJNone_38 : lookupJ mmuJ_38 0xE00000 = none := by
  simp only [mmuJ_38, lookupJ_append, mmuJNone_37]
  decide

theorem mmuJNone_39 : lookupJ mmuJ_39 0xE00000 = none := by
  simp only [mmuJ_39, lookupJ_append, mmuJNone_38]
  decide

theorem mmuJNone_40 : lookupJ mmuJ_40 0xE00000 = none := by
  simp only [mmuJ_40, lookupJ_append, mmuJNone_39]
  decide

theorem mmuJNone_41 : lookupJ mmuJ_41 0xE00000 = none := by
  simp only [mmuJ_41, lookupJ_append, mmuJNone_40]
  decide

theorem mmuJNone_42 : lookupJ mmuJ_42 0xE00000 = none := by
  simp only [mmuJ_42, lookupJ_append, mmuJNone_41]
  decide

theorem mmuJNone_43 : lookupJ mmuJ_43 0xE00000 = none := by
  simp only [mmuJ_43, lookupJ_append, mmuJNone_42]
  decide

theorem mmuJNone_44 : lookupJ mmuJ_44 0xE00000 = none := by
  simp only [mmuJ_44, lookupJ_append, mmuJNone_43]
  decide

theorem mmuJNone_45 : lookupJ mmuJ_45 0xE00000 = none := by
  simp only [mmuJ_45, lookupJ_append, mmuJNone_44]
  decide

theorem mmuJNone_46 : lookupJ mmuJ_46 0xE00000 = none := by
  simp only [mmuJ_46, lookupJ_append, mmuJNone_45]
  decide

theorem mmuJNone_47 : lookupJ mmuJ_47 0xE00000 = none := by
  simp only [mmuJ_47, lookupJ_append, mmuJNone_46]
  decide

theorem mmuJNone_48 : lookupJ mmuJ_48 0xE00000 = none := by
  simp only [mmuJ_48, lookupJ_append, mmuJNone_47]
  decide

theorem mmuJNone_49 : lookupJ mmuJ_49 0xE00000 = none := by
  simp only [mmuJ_49, lookupJ_append, mmuJNone_48]
  decide

theorem mmuJNone_50 : lookupJ mmuJ_50 0xE00000 = none := by
  simp only [mmuJ_50, lookupJ_append, mmuJNone_49]
  decide

theorem mmuJNone_51 : lookupJ mmuJ_51 0xE00000 = none := by
  simp only [mmuJ_51, lookupJ_append, mmuJNone_50]
  decide

theorem mmuJNone_52 : lookupJ mmuJ_52 0xE00000 = none := by
  simp only [mmuJ_52, lookupJ_append, mmuJNone_51]
  decide

theorem mmuJNone_53 : lookupJ mmuJ_53 0xE00000 = none := by
  simp only [mmuJ_53, lookupJ_append, mmuJNone_52]
  decide

theorem mmuJNone_54 : lookupJ mmuJ_54 0xE00000 = none := by
  simp only [mmuJ_54, lookupJ_append, mmuJNone_53]
  decide

theorem mmuJNone_55 : lookupJ mmuJ_55 0xE00000 = none := by
  simp only [mmuJ_55, lookupJ_append, mmuJNone_54]
  decide

theorem mmuJNone_56 : lookupJ mmuJ_56 0xE00000 = none := by
  simp only [mmuJ_56, lookupJ_append, mmuJNone_55]
  decide

theorem mmuJNone_57 : lookupJ mmuJ_57 0xE00000 = none := by
  simp only [mmuJ_57, lookupJ_append, mmuJNone_56]
  decide

theorem mmuJNone_58 : lookupJ mmuJ_58 0xE00000 = none := by
  simp only [mmuJ_58, lookupJ_append, mmuJNone_57]
  decide

theorem mmuJNone_59 : lookupJ mmuJ_59 0xE00000 = none := by
  simp only [mmuJ_59, lookupJ_append, mmuJNone_58]
  decide

theorem mmuJNone_60 : lookupJ mmuJ_60 0xE00000 = none := by
  simp only [mmuJ_60, lookupJ_append, mmuJNone_59]
  decide

theorem mmuJNone_61 : lookupJ mmuJ_61 0xE00000 = none := by
  simp only [mmuJ_61, lookupJ_append, mmuJNone_60]
  decide

theorem mmuJNone_62 : lookupJ mmuJ_62 0xE00000 = none := by
  simp only [mmuJ_62, lookupJ_append, mmuJNone_61]
  decide

theorem mmuJNone_63 : lookupJ mmuJ_63 0xE00000 = none := by
  simp only [mmuJ_63, lookupJ_append, mmuJNone_62]
  decide

theorem mmuJNone_64 : lookupJ mmuJ_64 0xE00000 = none := by
  simp only [mmuJ_64, lookupJ_append, mmuJNone_63]
  decide

theorem mmuJNone_65 : lookupJ mmuJ_65 0xE00000 = none := by
  simp only [mmuJ_65, lookupJ_append, mmuJNone_64]
  decide

theorem mmuJNone_66 : lookupJ mmuJ_66 0xE00000 = none := by
  simp only [mmuJ_66, lookupJ_append, mmuJNone_65]
  decide

theorem mmuJNone_67 : lookupJ mmuJ_67 0xE00000 = none := by
  simp only [mmuJ_67, lookupJ_append, mmuJNone_66]
  decide

theorem mmuJNone_68 : lookupJ mmuJ_68 0xE00000 = none := by
  simp only [mmuJ_68, lookupJ_append, mmuJNone_67]
  decide

theorem mmuJNone_69 : lookupJ mmuJ_69 0xE00000 = none := by
  simp only [mmuJ_69, lookupJ_append, mmuJNone_68]
  decide

theorem mmuJNone_70 : lookupJ mmuJ_70 0xE00000 = none := by
  simp only [mmuJ_70, lookupJ_append, mmuJNone_69]
  decide

theorem mmuJNone_71 : lookupJ mmuJ_71 0xE00000 = none := by
  simp only [mmuJ_71, lookupJ_append, mmuJNone_70]
  decide

theorem mmuJNone_72 : lookupJ mmuJ_72 0xE00000 = none := by
  simp only [mmuJ_72, lookupJ_append, mmuJNone_71]
  decide

theorem mmuJNone_73 : lookupJ mmuJ_73 0xE00000 = none := by
  simp only [mmuJ_73, lookupJ_append, mmuJNone_72]
  decide

theorem mmuJNone_74 : lookupJ mmuJ_74 0xE00000 = none := by
  simp only [mmuJ_74, lookupJ_append, mmuJNone_73]
  decide

theorem mmuJNone_75 : lookupJ mmuJ_75 0xE00000 = none := by
  simp only [mmuJ_75, lookupJ_append, mmuJNone_74]
  decide

theorem mmuJNone_76 : lookupJ mmuJ_76 0xE00000 = none := by
  simp only [mmuJ_76, lookupJ_append, mmuJNone_75]
  decide

theorem mmuJNone_77 : lookupJ mmuJ_77 0xE00000 = none := by
  simp only [mmuJ_77, lookupJ_append, mmuJNone_76]
  decide

theorem mmuJNone_78 : lookupJ mmuJ_78 0xE00000 = none := by
  simp only [mmuJ_78, lookupJ_append, mmuJNone_77]
  decide

theorem mmuJNone_79 : lookupJ mmuJ_79 0xE00000 = none := by
  simp only [mmuJ_79, lookupJ_append, mmuJNone_78]
  decide

theorem mmuJNone_80 : lookupJ mmuJ_80 0xE00000 = none := by
  simp only [mmuJ_80, lookupJ_append, mmuJNone_79]
  decide

theorem mmuJNone_81 : lookupJ mmuJ_81 0xE00000 = none := by
  simp only [mmuJ_81, lookupJ_append, mmuJNone_80]
  decide

theorem mmuJNone_82 : lookupJ mmuJ_82 0xE00000 = none := by
  simp only [mmuJ_82, lookupJ_append, mmuJNone_81]
  decide

theorem mmuJNone_83 : lookupJ mmuJ_83 0xE00000 = none := by
  simp only [mmuJ_83, lookupJ_append, mmuJNone_82]
  decide

theorem mmuJNone_84 : lookupJ mmuJ_84 0xE00000 = none := by
  simp only [mmuJ_84, lookupJ_append, mmuJNone_83]
  decide

theorem mmuJNone_85 : lookupJ mmuJ_85 0xE00000 = none := by
  simp only [mmuJ_85, lookupJ_append, mmuJNone_84]
  decide

theorem mmuJNone_86 : lookupJ mmuJ_86 0xE00000 = none := by
  simp only [mmuJ_86, lookupJ_append, mmuJNone_85]
  decide

theorem mmuJNone_87 : lookupJ mmuJ_87 0xE00000 = none := by
  simp only [mmuJ_87, lookupJ_append, mmuJNone_86]
  decide

theorem mmuJNone_88 : lookupJ mmuJ_88 0xE00000 = none := by
  simp only [mmuJ_88, lookupJ_append, mmuJNone_87]
  decide

theorem mmuJNone_89 : lookupJ mmuJ_89 0xE00000 = none := by
  simp only [mmuJ_89, lookupJ_append, mmuJNone_88]
  decide

theorem mmuJNone_90 : lookupJ mmuJ_90 0xE00000 = none := by
  simp only [mmuJ_90, lookupJ_append, mmuJNone_89]
  decide

theorem mmuJNone_91 : lookupJ mmuJ_91 0xE00000 = none := by
  simp only [mmuJ_91, lookupJ_append, mmuJNone_90]
  decide

theorem mmuJNone_92 : lookupJ mmuJ_92 0xE00000 = none := by
  simp only [mmuJ_92, lookupJ_append, mmuJNone_91]
  decide

theorem mmuJNone_93 : lookupJ mmuJ_93 0xE00000 = none := by
  simp only [mmuJ_93, lookupJ_append, mmuJNone_92]
  decide

theorem mmuJNone_94 : lookupJ mmuJ_94 0xE00000 = none := by
  simp only [mmuJ_94, lookupJ_append, mmuJNone_93]
  decide

theorem mmuJNone_95 : lookupJ mmuJ_95 0xE00000 = none := by
  simp only [mmuJ_95, lookupJ_append, mmuJNone_94]
  decide

theorem mmuJNone_96 : lookupJ mmuJ_96 0xE00000 = none := by
  simp only [mmuJ_96, lookupJ_append, mmuJNone_95]
  decide

theorem mmuJNone_97 : lookupJ mmuJ_97 0xE00000 = none := by
  simp only [mmuJ_97, lookupJ_append, mmuJNone_96]
  decide

theorem mmuJNone_98 : lookupJ mmuJ_98 0xE00000 = none := by
  simp only [mmuJ_98, lookupJ_append, mmuJNone_97]
  decide

theorem mmuJNone_99 : lookupJ mmuJ_99 0xE00000 = none := by
  simp only [mmuJ_99, lookupJ_append, mmuJNone_98]
  decide

theorem mmuJNone_100 : lookupJ mmuJ_100 0xE00000 = none := by
  simp only [mmuJ_100, lookupJ_append, mmuJNone_99]
  decide

theorem mmuJNone_101 : lookupJ mmuJ_101 0xE00000 = none := by
  simp only [mmuJ_101, lookupJ_append, mmuJNone_100]
  decide

theorem mmuJNone_102 : lookupJ mmuJ_102 0xE00000 = none := by
  simp only [mmuJ_102, lookupJ_append, mmuJNone_101]
  decide

theorem mmuJNone_103 : lookupJ mmuJ_103 0xE00000 = none := by
  simp only [mmuJ_103, lookupJ_append, mmuJNone_102]
  decide

theorem mmuJNone_104 : lookupJ mmuJ_104 0xE00000 = none := by
  simp only [mmuJ_104, lookupJ_append, mmuJNone_103]
  decide

theorem mmuJNone_105 : lookupJ mmuJ_105 0xE00000 = none := by
  simp only [mmuJ_105, lookupJ_append, mmuJNone_104]
  decide

theorem mmuJNone_106 : lookupJ mmuJ_106 0xE00000 = none := by
  simp only [mmuJ_106, lookupJ_append, mmuJNone_105]
  decide

theorem mmuJNone_107 : lookupJ mmuJ_107 0xE00000 = none := by
  simp only [mmuJ_107, lookupJ_append, mmuJNone_106]
  decide

theorem mmuJNone_108 : lookupJ mmuJ_108 0xE00000 = none := by
  simp only [mmuJ_108, lookupJ_append, mmuJNone_107]
  decide

theorem mmuJNone_109 : lookupJ mmuJ_109 0xE00000 = none := by
  simp only [mmuJ_109, lookupJ_append, mmuJNone_108]
  decide

theorem mmuJNone_110 : lookupJ mmuJ_110 0xE00000 = none := by
  simp only [mmuJ_110, lookupJ_append, mmuJNone_109]
  decide

theorem mmuJNone_111 : lookupJ mmuJ_111 0xE00000 = none := by
  simp only [mmuJ_111, lookupJ_append, mmuJNone_110]
  decide

theorem mmuJNone_112 : lookupJ mmuJ_112 0xE00000 = none := by
  simp only [mmuJ_112, lookupJ_append, mmuJNone_111]
  decide

theorem mmuJNone_113 : lookupJ mmuJ_113 0xE00000 = none := by
  simp only [mmuJ_113, lookupJ_append, mmuJNone_112]
  decide

theorem mmuJNone_114 : lookupJ mmuJ_114 0xE00000 = none := by
  simp only [mmuJ_114, lookupJ_append, mmuJNone_113]
  decide

theorem mmuJNone_115 : lookupJ mmuJ_115 0xE00000 = none := by
  simp only [mmuJ_115, lookupJ_append, mmuJNone_114]
  decide

theorem mmuJNone_116 : lookupJ mmuJ_116 0xE00000 = none := by
  simp only [mmuJ_116, lookupJ_append, mmuJNone_115]
  decide

theorem mmuJNone_117 : lookupJ mmuJ_117 0xE00000 = none := by
  simp only [mmuJ_117, lookupJ_append, mmuJNone_116]
  decide

theorem mmuJNone_118 : lookupJ mmuJ_118 0xE00000 = none := by
  simp only [mmuJ_118, lookupJ_append, mmuJNone_117]
  decide

theorem mmuJNone_119 : lookupJ mmuJ_119 0xE00000 = none := by
  simp only [mmuJ_119, lookupJ_append, mmuJNone_118]
  decide

theorem mmuJNone_120 : lookupJ mmuJ_120 0xE00000 = none := by
  simp only [mmuJ_120, lookupJ_append, mmuJNone_119]
  decide

theorem mmuJNone_121 : lookupJ mmuJ_121 0xE00000 = none := by
  simp only [mmuJ_121, lookupJ_append, mmuJNone_120]
  decide

theorem mmuJNone_122 : lookupJ mmuJ_122 0xE00000 = none := by
  simp only [mmuJ_122, lookupJ_append, mmuJNone_121]
  decide

theorem mmuJNone_123 : lookupJ mmuJ_123 0xE00000 = none := by
  simp only [mmuJ_123, lookupJ_append, mmuJNone_122]
  decide

theorem mmuJNone_124 : lookupJ mmuJ_124 0xE00000 = none := by
  simp only [mmuJ_124, lookupJ_append, mmuJNone_123]
  decide

theorem mmuJNone_125 : lookupJ mmuJ_125 0xE00000 = none := by
  simp only [mmuJ_125, lookupJ_append, mmuJNone_124]
  decide

theorem mmuJNone_126 : lookupJ mmuJ_126 0xE00000 = none := by
  simp only [mmuJ_126, lookupJ_append, mmuJNone_125]
  decide

theorem mmuJNone_127 : lookupJ mmuJ_127 0xE00000 = none := by
  simp only [mmuJ_127, lookupJ_append, mmuJNone_126]
  decide


/-- `setup_initial_paging` reaches exactly the journalled final state. -/
theorem mmuSetupEq : setup_initial_paging = (mmuFinalMem, L1_TABLE_ADDR) := by
  have h0 : setup_initial_paging = (runPages 0 4096 ⟨[], [], []⟩, L1_TABLE_ADDR) := rfl
  rw [h0, mmuRun_0]

/-- In the final memory, the address `0xE00000` - where the Sv39 walk for
virtual address 0 ends up - was never written, so it still reads zero. -/
theorem mmuFinalRead : mem_read mmuFinalMem 0xE00000 = 0 := by
  unfold mem_read
  rw [if_neg (by decide), if_neg (by decide)]
  show (lookupJ mmuFinalMem.other 0xE00000).getD 0 = 0
  rw [show mmuFinalMem.other = mmuJ_127 from rfl, mmuJNone_127]
  rfl

theorem mmuWalk0 : sv39_walk mmuFinalMem L1_TABLE_ADDR 0 = none := by
  have h1 : mem_read mmuFinalMem (L1_TABLE_ADDR + 8 * (get_indices 0).1)
      = PageTableEntry.new_table PAGE_TABLE_MOCK_ADDR := by decide
  have h2 : mem_read mmuFinalMem
      (pte_next_addr (PageTableEntry.new_table PAGE_TABLE_MOCK_ADDR) + 8 * (get_indices 0).2.1)
      = PageTableEntry.new_page 0xE00000 kernel_flags := by decide
  have h3 : pte_next_addr (PageTableEntry.new_page 0xE00000 kernel_flags)
      + 8 * (get_indices 0).2.2 = 0xE00000 := by decide
  simp only [sv39_walk, h1, h2, h3, mmuFinalRead]
  decide

/-- C3 (code evaluated at the failing input).  The claim says that after
`setup_initial_paging` every page-aligned virtual address below 16 MiB
reaches a valid RWX leaf mapping it to itself; but already for virtual
address 0 the Sv39 walk from the returned root dies at an invalid L3
entry, because `alloc_page_table` hands out the same static mock page for
every table, so later mappings clobber the earlier tree.  (At the L2 step
the walk finds the leaf for physical `0xE00000` - the last 2 MiB block
mapped - rather than a table for virtual 0, and the decoded L3 entry at
`0xE00000` was never written.) -/
theorem C3_identity_map_broken :
    sv39_walk setup_initial_paging.1 setup_initial_paging.2 0 = none := by
  rw [mmuSetupEq]
  exact mmuWalk0
